import Mathlib

/-!
Verification of the library-system repository (ejercicio01.py, ejercicio02.py,
ejercicio03.py) against its natural-language specification.

Python strings are modelled as Lean `String`; the string operations the code
uses (`str.lower`, `in`, `str.strip`, `str.split`, `readlines`, `int(...)`,
`str(bool)`) are given explicit executable definitions over the character list
`String.data`, mirroring Python's semantics on the inputs this program
produces (ASCII case folding; `int()` with optional sign and surrounding
whitespace, without underscore grouping).
-/

/-- Models Python's default whitespace set for `str.strip()`. -/
def pyEsEspacio (c : Char) : Bool :=
  c = ' ' || c = '\t' || c = '\n' || c = '\r' || c = '\x0b' || c = '\x0c'

/-- Models Python `str.strip()`: drop leading and trailing whitespace. -/
def pyStrip (s : String) : String :=
  ⟨((s.data.dropWhile pyEsEspacio).reverse.dropWhile pyEsEspacio).reverse⟩

/-- Helper for `pySplit`: accumulates the current field (reversed). -/
def pySplitAux (sep : Char) : List Char → List Char → List (List Char)
  | [], actual => [actual.reverse]
  | c :: resto, actual =>
    if c = sep then actual.reverse :: pySplitAux sep resto []
    else pySplitAux sep resto (c :: actual)

/-- Models Python `s.split(sep)` for a one-character separator:
`"".split('|') = [""]`, separators delimit possibly empty fields. -/
def pySplit (sep : Char) (s : String) : List String :=
  (pySplitAux sep s.data []).map (fun campo => ⟨campo⟩)

/-- Helper for `pyLineas`: splits at `\n`, `\r\n` or `\r`. -/
def pyLineasAux : List Char → List Char → List (List Char)
  | [], actual => [actual.reverse]
  | '\r' :: '\n' :: resto, actual => actual.reverse :: pyLineasAux resto []
  | '\r' :: resto, actual => actual.reverse :: pyLineasAux resto []
  | '\n' :: resto, actual => actual.reverse :: pyLineasAux resto []
  | c :: resto, actual => pyLineasAux resto (c :: actual)

/-- Models `f.readlines()` on a text-mode file with the given content:
universal-newline splitting.  The line terminators themselves are dropped
(every use in the source strips the line immediately afterwards, so keeping
them would be observationally equal). -/
def pyLineas (contenido : String) : List String :=
  (pyLineasAux contenido.data []).map (fun linea => ⟨linea⟩)

/-- Models Python ASCII lowercasing `str.lower()` (the only case folding the
program's data needs). -/
def pyMinuscula (s : String) : String :=
  ⟨s.data.map Char.toLower⟩

/-- `aguja` occurs as a contiguous prefix of `pajar`. -/
def esPrefijoDe (aguja pajar : List Char) : Bool :=
  match aguja, pajar with
  | [], _ => true
  | _ :: _, [] => false
  | a :: as, b :: bs => a == b && esPrefijoDe as bs

/-- `aguja` occurs as a contiguous sublist of `pajar`. -/
def contieneSub (aguja : List Char) : List Char → Bool
  | [] => aguja.isEmpty
  | c :: resto => esPrefijoDe aguja (c :: resto) || contieneSub aguja resto

/-- Models Python's substring test `aguja in pajar` on strings. -/
def pyEn (aguja pajar : String) : Bool :=
  contieneSub aguja.data pajar.data

/-- ASCII decimal digit test. -/
def esDigito (c : Char) : Bool := '0' ≤ c && c ≤ '9'

/-- Numeric value of an ASCII digit. -/
def valorDigito (c : Char) : Nat := c.toNat - '0'.toNat

/-- Parses a nonempty all-digit character list as a natural number. -/
def digitosANat? (cs : List Char) : Option Nat :=
  if cs ≠ [] ∧ cs.all esDigito then
    some (cs.foldl (fun acc c => 10 * acc + valorDigito c) 0)
  else none

/-- Models Python `int(s)` on the decimal inputs this program handles:
surrounding whitespace is ignored, an optional single sign is allowed,
everything else must be digits; `none` models the `ValueError` raised
otherwise. -/
def pyInt? (s : String) : Option Int :=
  match (pyStrip s).data with
  | [] => none
  | c :: resto =>
    if c = '-' then (digitosANat? resto).map (fun n => -(n : Int))
    else if c = '+' then (digitosANat? resto).map (fun n => (n : Int))
    else (digitosANat? (c :: resto)).map (fun n => (n : Int))

/-- Models Python `str(b)` for a bool, as interpolated by the f-strings in
`_guardar_en_archivo`. -/
def pyBoolAStr (b : Bool) : String := if b then "True" else "False"

/-- Models Python `"\n".join(errores)`. -/
def pyJoin (errores : List String) : String := String.intercalate "\n" errores

/-- Modelled from the spec: the record class `Libro` from module `libro`
(file not included in the sources), whose shape is fixed by its construction
sites `Libro(id, titulo, autor, isbn, disponible)` and by the spec's data
model.  The `id` is an integer assigned by the repository; the `None`
placeholder the services pass before insertion is modelled as `0`, which every
repository overwrites before storing. -/
structure Libro where
  id : Int
  titulo : String
  autor : String
  isbn : String
  disponible : Bool
deriving DecidableEq, Repr

/-- Modelled from the spec: the record class `Prestamo` from module
`prestamo` (file not included in the sources), shape fixed by its construction
sites `Prestamo(id, libro_id, usuario, fecha)` and the spec's data model;
`devuelto` defaults to `false` (the loader sets it separately after
construction, and the spec states the default). -/
structure Prestamo where
  id : Int
  libro_id : Int
  usuario : String
  fecha : String
  devuelto : Bool := false
deriving DecidableEq, Repr

/-- The in-memory state shared by `RepositorioBiblioteca` (ejercicio02),
`RepositorioArchivo` and `RepositorioMemoria` (ejercicio03): their `__init__`
bodies and CRUD methods are textually identical on these four fields.
`RepositorioArchivo` additionally mirrors every state to a file; the file
content is the pure function `Repositorio.guardar_en_archivo` of the state, so
it is not duplicated inside the state. -/
structure Repositorio where
  libros : List Libro
  prestamos : List Prestamo
  contador_libro : Int
  contador_prestamo : Int
deriving DecidableEq, Repr

/-- The state every repository constructor starts from (before any file
load). -/
def Repositorio.vacio : Repositorio := ⟨[], [], 1, 1⟩

/-- `agregar_libro` of the repositories: assign the counter as id, append,
bump the counter, return the stored record. -/
def Repositorio.agregar_libro (libro : Libro) (s : Repositorio) :
    Libro × Repositorio :=
  let conId := { libro with id := s.contador_libro }
  (conId, { s with libros := s.libros ++ [conId],
                   contador_libro := s.contador_libro + 1 })

/-- `obtener_libro_por_id`: first stored book with the given id. -/
def Repositorio.obtener_libro_por_id (libro_id : Int) (s : Repositorio) :
    Option Libro :=
  s.libros.find? (fun libro => libro.id == libro_id)

/-- `obtener_todos_libros` (returns a copy of the list). -/
def Repositorio.obtener_todos_libros (s : Repositorio) : List Libro :=
  s.libros

/-- `obtener_libros_disponibles`. -/
def Repositorio.obtener_libros_disponibles (s : Repositorio) : List Libro :=
  s.libros.filter (fun libro => libro.disponible)

/-- The loop body of `actualizar_libro`: replace the first stored book whose
id matches and stop (`break`); no-op if no id matches. -/
def actualizarListaLibros (libro : Libro) : List Libro → List Libro
  | [] => []
  | l :: resto =>
    if l.id == libro.id then libro :: resto
    else l :: actualizarListaLibros libro resto

/-- `actualizar_libro` of the repositories. -/
def Repositorio.actualizar_libro (libro : Libro) (s : Repositorio) :
    Repositorio :=
  { s with libros := actualizarListaLibros libro s.libros }

/-- `agregar_prestamo` of the repositories. -/
def Repositorio.agregar_prestamo (prestamo : Prestamo) (s : Repositorio) :
    Prestamo × Repositorio :=
  let conId := { prestamo with id := s.contador_prestamo }
  (conId, { s with prestamos := s.prestamos ++ [conId],
                   contador_prestamo := s.contador_prestamo + 1 })

/-- `obtener_prestamo_por_id`. -/
def Repositorio.obtener_prestamo_por_id (prestamo_id : Int) (s : Repositorio) :
    Option Prestamo :=
  s.prestamos.find? (fun prestamo => prestamo.id == prestamo_id)

/-- `obtener_prestamos_activos`. -/
def Repositorio.obtener_prestamos_activos (s : Repositorio) : List Prestamo :=
  s.prestamos.filter (fun p => !p.devuelto)

/-- The loop body of `actualizar_prestamo`. -/
def actualizarListaPrestamos (prestamo : Prestamo) :
    List Prestamo → List Prestamo
  | [] => []
  | p :: resto =>
    if p.id == prestamo.id then prestamo :: resto
    else p :: actualizarListaPrestamos prestamo resto

/-- `actualizar_prestamo` of the repositories. -/
def Repositorio.actualizar_prestamo (prestamo : Prestamo) (s : Repositorio) :
    Repositorio :=
  { s with prestamos := actualizarListaPrestamos prestamo s.prestamos }

/-- The body (without the newline of `f.write`) of the `LIBRO|...` line
written by `RepositorioArchivo._guardar_en_archivo` for one book. -/
def cuerpoLibro (libro : Libro) : String :=
  "LIBRO|" ++ toString libro.id ++ "|" ++ libro.titulo ++ "|" ++ libro.autor
    ++ "|" ++ libro.isbn ++ "|" ++ pyBoolAStr libro.disponible

/-- The full `LIBRO|...` line, newline included. -/
def lineaLibro (libro : Libro) : String := cuerpoLibro libro ++ "\n"

/-- The body of the `PRESTAMO|...` line written by `_guardar_en_archivo` for
one loan. -/
def cuerpoPrestamo (prestamo : Prestamo) : String :=
  "PRESTAMO|" ++ toString prestamo.id ++ "|" ++ toString prestamo.libro_id
    ++ "|" ++ prestamo.usuario ++ "|" ++ prestamo.fecha ++ "|"
    ++ pyBoolAStr prestamo.devuelto

/-- The full `PRESTAMO|...` line, newline included. -/
def lineaPrestamo (prestamo : Prestamo) : String :=
  cuerpoPrestamo prestamo ++ "\n"

/-- The concatenation produced by a sequence of `f.write` calls. -/
def concatTodo : List String → String
  | [] => ""
  | linea :: resto => linea ++ concatTodo resto

/-- `RepositorioArchivo._guardar_en_archivo`: the full file content written
on every mutation — two header count lines, then one line per book, then one
line per loan. -/
def Repositorio.guardar_en_archivo (s : Repositorio) : String :=
  ("Libros: " ++ toString s.libros.length) ++ "\n"
    ++ (("Préstamos: " ++ toString s.prestamos.length) ++ "\n"
    ++ (concatTodo (s.libros.map lineaLibro)
    ++ concatTodo (s.prestamos.map lineaPrestamo)))

/-- The loop state of `_cargar_desde_archivo`: the lists appended to so far
and the running maxima of the seen ids. -/
structure CargaAcc where
  libros : List Libro
  prestamos : List Prestamo
  max_libro_id : Int
  max_prestamo_id : Int
deriving DecidableEq, Repr

/-- One iteration of the load loop of `_cargar_desde_archivo` on one line:
`partes = linea.strip().split('|')`; a `LIBRO` or `PRESTAMO` tag with exactly
6 fields appends a record (`none` models the uncaught-in-the-loop exception
raised by `int(...)` on a non-integer field); any other line is skipped. -/
def cargarLinea (acc : CargaAcc) (linea : String) : Option CargaAcc :=
  let partes := pySplit '|' (pyStrip linea)
  if partes.headD "" = "LIBRO" ∧ partes.length = 6 then
    match pyInt? (partes.getD 1 "") with
    | none => none
    | some libro_id =>
      let libro : Libro :=
        ⟨libro_id, partes.getD 2 "", partes.getD 3 "", partes.getD 4 "",
          pyMinuscula (partes.getD 5 "") == "true"⟩
      some { acc with libros := acc.libros ++ [libro],
                      max_libro_id := max acc.max_libro_id libro_id }
  else if partes.headD "" = "PRESTAMO" ∧ partes.length = 6 then
    match pyInt? (partes.getD 1 "") with
    | none => none
    | some prestamo_id =>
      match pyInt? (partes.getD 2 "") with
      | none => none
      | some libro_id =>
        let prestamo : Prestamo :=
          ⟨prestamo_id, libro_id, partes.getD 3 "", partes.getD 4 "",
            pyMinuscula (partes.getD 5 "") == "true"⟩
        some { acc with prestamos := acc.prestamos ++ [prestamo],
                        max_prestamo_id := max acc.max_prestamo_id prestamo_id }
  else
    some acc

/-- The whole load loop; the `Bool` is `false` when an exception aborted it,
in which case the records appended before the bad line are kept (they were
already appended to `self.libros` / `self.prestamos`). -/
def cargarLineas (acc : CargaAcc) : List String → CargaAcc × Bool
  | [] => (acc, true)
  | linea :: resto =>
    match cargarLinea acc linea with
    | none => (acc, false)
    | some acc2 => cargarLineas acc2 resto

/-- `RepositorioArchivo._cargar_desde_archivo` over an existing file with the
given content (`__init__` first sets the four fields to their empty-state
values, then loads).  On a clean pass the counters are recomputed as
`max_id + 1 if max_id > 0 else 1`; when the loop is aborted by an exception
the `except` branch catches it after the appends, so the partially loaded
lists are kept and the counters keep their initial value `1`. -/
def Repositorio.cargar_desde_archivo (contenido : String) : Repositorio :=
  let resultado := cargarLineas ⟨[], [], 0, 0⟩ (pyLineas contenido)
  match resultado with
  | (acc, true) =>
    { libros := acc.libros, prestamos := acc.prestamos,
      contador_libro := if acc.max_libro_id > 0 then acc.max_libro_id + 1 else 1,
      contador_prestamo :=
        if acc.max_prestamo_id > 0 then acc.max_prestamo_id + 1 else 1 }
  | (acc, false) =>
    { libros := acc.libros, prestamos := acc.prestamos,
      contador_libro := 1, contador_prestamo := 1 }

/-- `ValidadorBiblioteca.validar_libro` (ejercicio02): all three checks run,
every failing one appends its message. -/
def ValidadorBiblioteca.validar_libro (titulo autor isbn : String) :
    List String :=
  (if titulo = "" ∨ (pyStrip titulo).length < 2 then
    ["Error: Título inválido - debe tener al menos 2 caracteres"] else [])
  ++ (if autor = "" ∨ (pyStrip autor).length < 3 then
    ["Error: Autor inválido - debe tener al menos 3 caracteres"] else [])
  ++ (if isbn = "" ∨ (pyStrip isbn).length < 10 then
    ["Error: ISBN inválido - debe tener al menos 10 caracteres"] else [])

/-- `ValidadorBiblioteca.validar_usuario` (ejercicio02). -/
def ValidadorBiblioteca.validar_usuario (usuario : String) : List String :=
  if usuario = "" ∨ (pyStrip usuario).length < 3 then
    ["Error: Nombre de usuario inválido - debe tener al menos 3 caracteres"]
  else []

/-- `ValidadorBiblioteca.validar_prestamo_existente` (ejercicio02). -/
def ValidadorBiblioteca.validar_prestamo_existente (prestamo : Option Prestamo) :
    List String :=
  match prestamo with
  | none => ["Error: Préstamo no encontrado"]
  | some p => if p.devuelto then ["Error: Libro ya devuelto"] else []

/-- `ValidadorBiblioteca.validar_libro_disponible` (ejercicio02). -/
def ValidadorBiblioteca.validar_libro_disponible (libro : Option Libro) :
    List String :=
  match libro with
  | none => ["Error: Libro no encontrado"]
  | some l => if !l.disponible then ["Error: Libro no disponible"] else []

/-- What a service operation observably produces: the returned message, the
notification lines printed on the way (ejercicio02's
`ServicioNotificaciones` methods and ejercicio03's inline `print`s), and the
repository state afterwards. -/
structure Resultado where
  mensaje : String
  notificaciones : List String
  estado : Repositorio
deriving DecidableEq, Repr

/-- `ServicioNotificaciones.enviar_notificacion_prestamo` (ejercicio02). -/
def ServicioNotificaciones.notificacion_prestamo (usuario titulo : String) :
    String :=
  "[NOTIFICACIÓN] " ++ usuario ++ ": Préstamo de '" ++ titulo
    ++ "' realizado exitosamente"

/-- `ServicioNotificaciones.enviar_notificacion_devolucion` (ejercicio02). -/
def ServicioNotificaciones.notificacion_devolucion (usuario titulo : String) :
    String :=
  "[NOTIFICACIÓN] " ++ usuario ++ ": Devolución de '" ++ titulo
    ++ "' realizada exitosamente"

/-- The shared body of `buscar_libro` in ejercicio02's
`SistemaBibliotecaRefactorizado` and ejercicio03's `SistemaBibliotecaDIP`
(the two methods are textually identical): an `if/elif` chain over the
criterion name on the repository's full book list; any unrecognized criterion
falls through and returns the empty result list. -/
def buscarPorCriterio (criterio valor : String) (libros : List Libro) :
    List Libro :=
  if criterio = "titulo" then
    libros.filter (fun libro => pyEn (pyMinuscula valor) (pyMinuscula libro.titulo))
  else if criterio = "autor" then
    libros.filter (fun libro => pyEn (pyMinuscula valor) (pyMinuscula libro.autor))
  else if criterio = "isbn" then
    libros.filter (fun libro => libro.isbn == valor)
  else if criterio = "disponible" then
    libros.filter (fun libro => libro.disponible == (pyMinuscula valor == "true"))
  else []

namespace Ejercicio01

/-- The strategy contract of `EstrategiaBusqueda` (ejercicio01): one pure
method over the book list and the query string. -/
def Estrategia : Type := List Libro → String → List Libro

/-- `BusquedaPorTitulo.buscar` (ejercicio01): case-insensitive substring
match on the title; the append loop is order-preserving filtering. -/
def busquedaPorTitulo : Estrategia := fun libros valor =>
  libros.filter (fun libro => pyEn (pyMinuscula valor) (pyMinuscula libro.titulo))

/-- `BusquedaPorAutor.buscar` (ejercicio01). -/
def busquedaPorAutor : Estrategia := fun libros valor =>
  libros.filter (fun libro => pyEn (pyMinuscula valor) (pyMinuscula libro.autor))

/-- `BusquedaPorISBN.buscar` (ejercicio01): exact match. -/
def busquedaPorISBN : Estrategia := fun libros valor =>
  libros.filter (fun libro => libro.isbn == valor)

/-- `BusquedaPorDisponibilidad.buscar` (ejercicio01): the query is parsed by
`valor.lower() in ["true", "1", "si", "sí", "yes"]`, then books with that
availability are collected in order. -/
def busquedaPorDisponibilidad : Estrategia := fun libros valor =>
  let disponible := (["true", "1", "si", "sí", "yes"] : List String).contains
    (pyMinuscula valor)
  libros.filter (fun libro => libro.disponible == disponible)

/-- The state of ejercicio01's `SistemaBibliotecaRefactorizado`: the book
list and the strategy registry.  The Python `dict` is modelled as an
association list read through `find?`; `registrar_estrategia`'s
insert-or-overwrite is modelled by prepending (the newest binding for a name
shadows older ones, exactly the dict's observable lookup behaviour). -/
structure Sistema where
  libros : List Libro
  estrategias : List (String × Estrategia)

/-- The registry contents set up by `__init__`. -/
def estrategiasIniciales : List (String × Estrategia) :=
  [("titulo", busquedaPorTitulo), ("autor", busquedaPorAutor),
   ("isbn", busquedaPorISBN), ("disponible", busquedaPorDisponibilidad)]

/-- `__init__` of ejercicio01's system. -/
def Sistema.nuevo : Sistema := ⟨[], estrategiasIniciales⟩

/-- Dict lookup `self._estrategias_busqueda[criterio]`. -/
def Sistema.estrategiaDe (criterio : String) (s : Sistema) :
    Option Estrategia :=
  (s.estrategias.find? (fun par => par.1 == criterio)).map (fun par => par.2)

/-- `SistemaBibliotecaRefactorizado.buscar_libro` (ejercicio01): raises
`ValueError` (modelled as `Except.error` with the formatted message) when the
criterion is not a key of the registry, otherwise returns the strategy's
output unchanged. -/
def Sistema.buscar_libro (criterio valor : String) (s : Sistema) :
    Except String (List Libro) :=
  match s.estrategiaDe criterio with
  | none => Except.error ("Criterio de búsqueda no válido: " ++ criterio)
  | some estrategia => Except.ok (estrategia s.libros valor)

/-- `SistemaBibliotecaRefactorizado.registrar_estrategia` (ejercicio01). -/
def Sistema.registrar_estrategia (criterio : String) (estrategia : Estrategia)
    (s : Sistema) : Sistema :=
  { s with estrategias := (criterio, estrategia) :: s.estrategias }

end Ejercicio01

namespace Ejercicio02

/-- `SistemaBibliotecaRefactorizado.agregar_libro` (ejercicio02): validate
through `ValidadorBiblioteca.validar_libro`; on any error return the
newline-joined messages without touching the repository, otherwise store a
new available book and return the success message. -/
def agregar_libro (titulo autor isbn : String) (s : Repositorio) : Resultado :=
  let errores := ValidadorBiblioteca.validar_libro titulo autor isbn
  if errores ≠ [] then ⟨pyJoin errores, [], s⟩
  else
    let resultado := Repositorio.agregar_libro ⟨0, titulo, autor, isbn, true⟩ s
    ⟨"Libro '" ++ titulo ++ "' agregado exitosamente (ID: "
      ++ toString resultado.1.id ++ ")", [], resultado.2⟩

/-- `SistemaBibliotecaRefactorizado.buscar_libro` (ejercicio02), over
`obtener_todos_libros`. -/
def buscar_libro (criterio valor : String) (s : Repositorio) : List Libro :=
  buscarPorCriterio criterio valor (Repositorio.obtener_todos_libros s)

/-- `SistemaBibliotecaRefactorizado.realizar_prestamo` (ejercicio02).
`fecha` is the value of `datetime.now().strftime("%Y-%m-%d")`, passed
explicitly since the model is pure. -/
def realizar_prestamo (libro_id : Int) (usuario fecha : String)
    (s : Repositorio) : Resultado :=
  let errores_usuario := ValidadorBiblioteca.validar_usuario usuario
  if errores_usuario ≠ [] then ⟨pyJoin errores_usuario, [], s⟩
  else
    let libro? := Repositorio.obtener_libro_por_id libro_id s
    let errores_libro := ValidadorBiblioteca.validar_libro_disponible libro?
    if errores_libro ≠ [] then ⟨pyJoin errores_libro, [], s⟩
    else
      match libro? with
      | none => ⟨pyJoin errores_libro, [], s⟩
      | some libro =>
        let prestamo : Prestamo := ⟨0, libro_id, usuario, fecha, false⟩
        let resultado := Repositorio.agregar_prestamo prestamo s
        let s2 := Repositorio.actualizar_libro { libro with disponible := false }
          resultado.2
        ⟨"Préstamo realizado a " ++ usuario ++ " (ID Préstamo: "
          ++ toString resultado.1.id ++ ")",
         [ServicioNotificaciones.notificacion_prestamo usuario libro.titulo], s2⟩

/-- `SistemaBibliotecaRefactorizado.devolver_libro` (ejercicio02). -/
def devolver_libro (prestamo_id : Int) (s : Repositorio) : Resultado :=
  let prestamo? := Repositorio.obtener_prestamo_por_id prestamo_id s
  let errores := ValidadorBiblioteca.validar_prestamo_existente prestamo?
  if errores ≠ [] then ⟨pyJoin errores, [], s⟩
  else
    match prestamo? with
    | none => ⟨pyJoin errores, [], s⟩
    | some prestamo =>
      let libro? := Repositorio.obtener_libro_por_id prestamo.libro_id s
      let s2 := match libro? with
        | some libro =>
          Repositorio.actualizar_libro { libro with disponible := true } s
        | none => s
      let s3 := Repositorio.actualizar_prestamo
        { prestamo with devuelto := true } s2
      let notifs := match libro? with
        | some libro =>
          [ServicioNotificaciones.notificacion_devolucion prestamo.usuario
            libro.titulo]
        | none => []
      ⟨"Libro devuelto exitosamente", notifs, s3⟩

end Ejercicio02

namespace Ejercicio03

/-- `SistemaBibliotecaDIP.agregar_libro` (ejercicio03): three inline checks
that return at the first failure (unlike ejercicio02 these neither strip nor
accumulate), then store a new available book. -/
def agregar_libro (titulo autor isbn : String) (s : Repositorio) : Resultado :=
  if titulo = "" ∨ titulo.length < 2 then ⟨"Error: Título inválido", [], s⟩
  else if autor = "" ∨ autor.length < 3 then ⟨"Error: Autor inválido", [], s⟩
  else if isbn = "" ∨ isbn.length < 10 then ⟨"Error: ISBN inválido", [], s⟩
  else
    let resultado := Repositorio.agregar_libro ⟨0, titulo, autor, isbn, true⟩ s
    ⟨"Libro '" ++ titulo ++ "' agregado exitosamente (ID: "
      ++ toString resultado.1.id ++ ")", [], resultado.2⟩

/-- `SistemaBibliotecaDIP.buscar_libro` (ejercicio03), over
`obtener_todos_libros`. -/
def buscar_libro (criterio valor : String) (s : Repositorio) : List Libro :=
  buscarPorCriterio criterio valor (Repositorio.obtener_todos_libros s)

/-- `SistemaBibliotecaDIP.realizar_prestamo` (ejercicio03).  `fecha` is the
value of `datetime.now().strftime("%Y-%m-%d")`, passed explicitly. -/
def realizar_prestamo (libro_id : Int) (usuario fecha : String)
    (s : Repositorio) : Resultado :=
  if usuario = "" ∨ usuario.length < 3 then
    ⟨"Error: Nombre de usuario inválido", [], s⟩
  else
    match Repositorio.obtener_libro_por_id libro_id s with
    | none => ⟨"Error: Libro no encontrado", [], s⟩
    | some libro =>
      if !libro.disponible then ⟨"Error: Libro no disponible", [], s⟩
      else
        let prestamo : Prestamo := ⟨0, libro_id, usuario, fecha, false⟩
        let resultado := Repositorio.agregar_prestamo prestamo s
        let s2 := Repositorio.actualizar_libro
          { libro with disponible := false } resultado.2
        ⟨"Préstamo realizado a " ++ usuario ++ " (ID Préstamo: "
          ++ toString resultado.1.id ++ ")",
         ["[NOTIFICACIÓN] " ++ usuario ++ ": Préstamo de '" ++ libro.titulo
           ++ "'"], s2⟩

/-- `SistemaBibliotecaDIP.devolver_libro` (ejercicio03). -/
def devolver_libro (prestamo_id : Int) (s : Repositorio) : Resultado :=
  match Repositorio.obtener_prestamo_por_id prestamo_id s with
  | none => ⟨"Error: Préstamo no encontrado", [], s⟩
  | some prestamo =>
    if prestamo.devuelto then ⟨"Error: Libro ya devuelto", [], s⟩
    else
      let libro? := Repositorio.obtener_libro_por_id prestamo.libro_id s
      let s2 := match libro? with
        | some libro =>
          Repositorio.actualizar_libro { libro with disponible := true } s
        | none => s
      let s3 := Repositorio.actualizar_prestamo
        { prestamo with devuelto := true } s2
      let notifs := match libro? with
        | some libro =>
          ["[NOTIFICACIÓN] " ++ prestamo.usuario ++ ": Devolución de '"
            ++ libro.titulo ++ "'"]
        | none => []
      ⟨"Libro devuelto exitosamente", notifs, s3⟩

end Ejercicio03

/-- The number of stored loans that reference the given book id and are not
yet returned ("exactly one loan with `returned == false`" is
`contarActivos _ _ = 1`). -/
def contarActivos (libro_id : Int) (prestamos : List Prestamo) : Nat :=
  (prestamos.filter (fun p => p.libro_id == libro_id && !p.devuelto)).length

/-- States reachable from an empty repository by any sequence of
`SistemaBibliotecaDIP` service operations (with arbitrary arguments). -/
inductive Alcanzable : Repositorio → Prop
  | vacio : Alcanzable Repositorio.vacio
  | agregar (titulo autor isbn : String) {s : Repositorio} :
      Alcanzable s → Alcanzable (Ejercicio03.agregar_libro titulo autor isbn s).estado
  | prestamo (libro_id : Int) (usuario fecha : String) {s : Repositorio} :
      Alcanzable s →
      Alcanzable (Ejercicio03.realizar_prestamo libro_id usuario fecha s).estado
  | devolver (prestamo_id : Int) {s : Repositorio} :
      Alcanzable s → Alcanzable (Ejercicio03.devolver_libro prestamo_id s).estado

/-- The inductive strengthening of the availability invariant: book ids are
below the book counter and pairwise distinct, loan references stay below the
book counter, and every stored book has exactly `0` active loans when
available and exactly `1` when not. -/
def Invariante (s : Repositorio) : Prop :=
  (∀ l ∈ s.libros, l.id < s.contador_libro) ∧
  (s.libros.map (fun l => l.id)).Pairwise (· ≠ ·) ∧
  (∀ p ∈ s.prestamos, p.libro_id < s.contador_libro) ∧
  (∀ l ∈ s.libros,
    contarActivos l.id s.prestamos = if l.disponible then 0 else 1)

/-! ### Helper lemmas about the Python string primitives -/

/-- The decimal digit list of a natural number, most significant first:
the purely structural counterpart of `Nat.toDigits 10`. -/
def digitosDe (n : Nat) : List Char :=
  if n < 10 then [Nat.digitChar n]
  else digitosDe (n / 10) ++ [Nat.digitChar (n % 10)]
decreasing_by exact Nat.div_lt_self (by omega) (by omega)

theorem digitosDe_pequeno {n : Nat} (h : n < 10) :
    digitosDe n = [Nat.digitChar n] := by
  conv_lhs => rw [digitosDe]
  rw [if_pos h]

theorem digitosDe_grande {n : Nat} (h : ¬ n < 10) :
    digitosDe n = digitosDe (n / 10) ++ [Nat.digitChar (n % 10)] := by
  conv_lhs => rw [digitosDe]
  rw [if_neg h]

theorem toDigitsCore_eq_digitosDe (f n : Nat) (ds : List Char) (h : n < f) :
    Nat.toDigitsCore 10 f n ds = digitosDe n ++ ds := by
  induction f generalizing n ds with
  | zero => omega
  | succ f ih =>
    rw [Nat.toDigitsCore]
    by_cases h0 : n / 10 = 0
    · have hn : n < 10 := by omega
      simp only [h0, if_pos rfl]
      rw [digitosDe_pequeno hn, Nat.mod_eq_of_lt hn]
      rfl
    · have hn : ¬ n < 10 := by omega
      simp only [if_neg h0]
      rw [ih (n / 10) _ (by omega)]
      rw [digitosDe_grande hn, List.append_assoc]
      rfl

theorem natRepr_data (n : Nat) : (Nat.repr n).data = digitosDe n := by
  show (Nat.toDigits 10 n).asString.data = digitosDe n
  rw [Nat.toDigits, toDigitsCore_eq_digitosDe (n + 1) n [] (by omega)]
  simp [List.asString]

theorem digitChar_es_digito (d : Nat) (h : d < 10) :
    esDigito (Nat.digitChar d) = true ∧ valorDigito (Nat.digitChar d) = d := by
  revert h
  revert d
  decide

theorem digitosDe_ne_nil (n : Nat) : digitosDe n ≠ [] := by
  rw [digitosDe]
  split <;> simp

theorem digitosDe_all_digitos (n : Nat) :
    (digitosDe n).all esDigito = true := by
  induction n using Nat.strong_induction_on with
  | _ n ih =>
    by_cases h : n < 10
    · rw [digitosDe_pequeno h]
      simp [(digitChar_es_digito n h).1]
    · rw [digitosDe_grande h, List.all_append]
      have h1 := ih (n / 10) (Nat.div_lt_self (by omega) (by omega))
      have h2 := (digitChar_es_digito (n % 10) (Nat.mod_lt n (by omega))).1
      simp [h1, h2]

theorem digitosDe_foldl (n : Nat) :
    (digitosDe n).foldl (fun acc c => 10 * acc + valorDigito c) 0 = n := by
  induction n using Nat.strong_induction_on with
  | _ n ih =>
    by_cases h : n < 10
    · rw [digitosDe_pequeno h]
      simp [List.foldl, (digitChar_es_digito n h).2]
    · rw [digitosDe_grande h, List.foldl_append]
      rw [ih (n / 10) (Nat.div_lt_self (by omega) (by omega))]
      simp only [List.foldl]
      rw [(digitChar_es_digito (n % 10) (Nat.mod_lt n (by omega))).2]
      omega

theorem digitosANat?_digitosDe (n : Nat) :
    digitosANat? (digitosDe n) = some n := by
  rw [digitosANat?,
    if_pos ⟨digitosDe_ne_nil n, digitosDe_all_digitos n⟩, digitosDe_foldl n]

theorem esDigito_no_espacio (c : Char) (h : esDigito c = true) :
    pyEsEspacio c = false := by
  simp only [esDigito, Bool.and_eq_true, decide_eq_true_eq] at h
  simp only [pyEsEspacio, Bool.or_eq_false_iff, decide_eq_false_iff_not]
  refine ⟨⟨⟨⟨⟨?_, ?_⟩, ?_⟩, ?_⟩, ?_⟩, ?_⟩ <;>
    (intro hc; subst hc; revert h; decide)

theorem dropWhile_eq_self_de_todos {p : Char → Bool} {l : List Char}
    (h : ∀ c ∈ l, p c = false) : l.dropWhile p = l := by
  cases l with
  | nil => rfl
  | cons c resto =>
    rw [List.dropWhile_cons, if_neg]
    simp [h c (List.mem_cons_self c resto)]

theorem pyStrip_eq_self {s : String}
    (h : ∀ c ∈ s.data, pyEsEspacio c = false) : pyStrip s = s := by
  rw [pyStrip, dropWhile_eq_self_de_todos h, dropWhile_eq_self_de_todos]
  · simp
  · intro c hc
    exact h c (List.mem_reverse.mp hc)

theorem pyInt?_toString_nat (n : Nat) :
    pyInt? (toString (Int.ofNat n)) = some (Int.ofNat n) := by
  have hdata : (toString (Int.ofNat n)).data = digitosDe n := natRepr_data n
  have htodos : ∀ c ∈ (toString (Int.ofNat n)).data, pyEsEspacio c = false := by
    rw [hdata]
    intro c hc
    exact esDigito_no_espacio c (by
      have := digitosDe_all_digitos n
      rw [List.all_eq_true] at this
      exact this c hc)
  rw [pyInt?, pyStrip_eq_self htodos]
  obtain ⟨c, resto, hc⟩ : ∃ c resto, digitosDe n = c :: resto := by
    cases h : digitosDe n with
    | nil => exact absurd h (digitosDe_ne_nil n)
    | cons c resto => exact ⟨c, resto, rfl⟩
  have hdig : esDigito c = true := by
    have := digitosDe_all_digitos n
    rw [hc, List.all_cons, Bool.and_eq_true] at this
    exact this.1
  rw [hdata, hc]
  have hneg : ¬ c = '-' := by intro h; subst h; revert hdig; decide
  have hpos : ¬ c = '+' := by intro h; subst h; revert hdig; decide
  simp only [if_neg hneg, if_neg hpos, ← hc, digitosANat?_digitosDe n]
  rfl

theorem pyInt?_toString_int (i : Int) : pyInt? (toString i) = some i := by
  cases i with
  | ofNat n => exact pyInt?_toString_nat n
  | negSucc n =>
    have htos : toString (Int.negSucc n) = "-" ++ Nat.repr (n + 1) := rfl
    have hdata : (toString (Int.negSucc n)).data = '-' :: digitosDe (n + 1) := by
      rw [htos, String.data_append, natRepr_data]
      rfl
    have htodos : ∀ c ∈ (toString (Int.negSucc n)).data, pyEsEspacio c = false := by
      rw [hdata]
      intro c hc
      rcases List.mem_cons.mp hc with h | h
      · subst h; decide
      · exact esDigito_no_espacio c (by
          have := digitosDe_all_digitos (n + 1)
          rw [List.all_eq_true] at this
          exact this c h)
    rw [pyInt?, pyStrip_eq_self htodos, hdata]
    simp only [if_pos rfl, digitosANat?_digitosDe (n + 1)]
    rfl

/-- A record field is serializable verbatim: no field separator and no line
separator occurs in it. -/
def campoLimpio (s : String) : Bool :=
  s.data.all (fun c => !(c = '|' || c = '\n' || c = '\r'))

theorem pySplitAux_sin_sep {sep : Char} {l : List Char}
    (h : ∀ c ∈ l, c ≠ sep) (actual : List Char) :
    pySplitAux sep l actual = [actual.reverse ++ l] := by
  induction l generalizing actual with
  | nil => simp [pySplitAux]
  | cons c resto ih =>
    rw [pySplitAux, if_neg (h c (List.mem_cons_self c resto))]
    rw [ih (fun x hx => h x (List.mem_cons_of_mem c hx))]
    simp

theorem pySplitAux_campo (sep : Char) (l1 : List Char)
    (h : ∀ c ∈ l1, c ≠ sep) (l2 actual : List Char) :
    pySplitAux sep (l1 ++ sep :: l2) actual
      = (actual.reverse ++ l1) :: pySplitAux sep l2 [] := by
  induction l1 generalizing actual with
  | nil => simp [pySplitAux]
  | cons c resto ih =>
    rw [List.cons_append, pySplitAux, if_neg (h c (List.mem_cons_self c resto))]
    rw [ih (fun x hx => h x (List.mem_cons_of_mem c hx))]
    simp

theorem pyLineasAux_cons_otro {c : Char} (hc1 : c ≠ '\n') (hc2 : c ≠ '\r')
    (resto actual : List Char) :
    pyLineasAux (c :: resto) actual = pyLineasAux resto (c :: actual) := by
  rw [pyLineasAux.eq_def]
  split
  · simp_all
  · simp_all
  · simp_all
  · simp_all
  · next h1 h2 h3 h4 =>
    simp only [List.cons.injEq] at *
    simp_all

theorem pyLineasAux_sin_salto {l : List Char}
    (h : ∀ c ∈ l, c ≠ '\n' ∧ c ≠ '\r') (actual : List Char) :
    pyLineasAux l actual = [actual.reverse ++ l] := by
  induction l generalizing actual with
  | nil => simp [pyLineasAux]
  | cons c resto ih =>
    obtain ⟨h1, h2⟩ := h c (List.mem_cons_self c resto)
    rw [pyLineasAux_cons_otro h1 h2]
    rw [ih (fun x hx => h x (List.mem_cons_of_mem c hx))]
    simp

theorem pyLineasAux_linea {l1 : List Char}
    (h : ∀ c ∈ l1, c ≠ '\n' ∧ c ≠ '\r') (resto actual : List Char) :
    pyLineasAux (l1 ++ '\n' :: resto) actual
      = (actual.reverse ++ l1) :: pyLineasAux resto [] := by
  induction l1 generalizing actual with
  | nil =>
    simp only [List.nil_append]
    rw [pyLineasAux.eq_def]
    split
    · simp_all
    · simp_all
    · simp_all
    · next heq =>
      simp only [List.cons.injEq] at heq
      simp_all
    · exfalso
      rename_i hne1 hne2 heq
      injection heq with heq1 heq2
      exact hne2 heq1.symm
  | cons c cola ih =>
    obtain ⟨h1, h2⟩ := h c (List.mem_cons_self c cola)
    rw [List.cons_append, pyLineasAux_cons_otro h1 h2]
    rw [ih (fun x hx => h x (List.mem_cons_of_mem c hx))]
    simp

theorem pyStrip_mem {s : String} {c : Char} (h : c ∈ (pyStrip s).data) :
    c ∈ s.data := by
  simp only [pyStrip] at h
  rw [List.mem_reverse] at h
  have h2 := (@List.dropWhile_sublist _ ((s.data.dropWhile pyEsEspacio).reverse) pyEsEspacio).mem h
  rw [List.mem_reverse] at h2
  exact (@List.dropWhile_sublist _ s.data pyEsEspacio).mem h2

theorem pyStrip_bordes {cs : List Char} {a b : Char}
    (hh : cs.head? = some a) (hl : cs.getLast? = some b)
    (ha : pyEsEspacio a = false) (hb : pyEsEspacio b = false) :
    pyStrip ⟨cs⟩ = ⟨cs⟩ := by
  obtain ⟨t, rfl⟩ : ∃ t, cs = a :: t := by
    cases cs with
    | nil => simp at hh
    | cons x xs => exact ⟨xs, by simpa using congrArg (Option.getD · ' ') hh⟩
  rw [pyStrip]
  show String.mk _ = _
  rw [List.dropWhile_cons, if_neg (by simp [ha])]
  obtain ⟨u, hu⟩ : ∃ u, (a :: t).reverse = b :: u := by
    have h1 : (a :: t).reverse.head? = some b := by
      rw [List.head?_reverse]
      exact hl
    cases hrev : (a :: t).reverse with
    | nil =>
      rw [hrev] at h1
      simp at h1
    | cons x xs =>
      rw [hrev] at h1
      simp only [List.head?_cons, Option.some.injEq] at h1
      exact ⟨xs, congrArg (fun z => z :: xs) h1⟩
  rw [hu, List.dropWhile_cons, if_neg (by simp [hb]), ← hu, List.reverse_reverse]

/-! ### Serialization / load round-trip lemmas -/

theorem esDigito_sin_especiales {c : Char} (h : esDigito c = true) :
    c ≠ '|' ∧ c ≠ '\n' ∧ c ≠ '\r' := by
  refine ⟨?_, ?_, ?_⟩ <;> (intro hc; subst hc; revert h; decide)

theorem toString_int_limpio (i : Int) : campoLimpio (toString i) = true := by
  rw [campoLimpio, List.all_eq_true]
  intro c hc
  have hdig : esDigito c = true ∨ c = '-' := by
    cases i with
    | ofNat n =>
      left
      rw [show (toString (Int.ofNat n)).data = digitosDe n from natRepr_data n]
        at hc
      have := digitosDe_all_digitos n
      rw [List.all_eq_true] at this
      exact this c hc
    | negSucc n =>
      rw [show (toString (Int.negSucc n)).data = '-' :: digitosDe (n + 1) by
        rw [show toString (Int.negSucc n) = "-" ++ Nat.repr (n + 1) from rfl,
          String.data_append, natRepr_data]
        rfl] at hc
      rcases List.mem_cons.mp hc with h | h
      · right; exact h
      · left
        have := digitosDe_all_digitos (n + 1)
        rw [List.all_eq_true] at this
        exact this c h
  rcases hdig with h | h
  · obtain ⟨h1, h2, h3⟩ := esDigito_sin_especiales h
    simp [h1, h2, h3]
  · subst h; decide

theorem campoLimpio_props {s : String} (h : campoLimpio s = true) :
    ∀ c ∈ s.data, c ≠ '|' ∧ c ≠ '\n' ∧ c ≠ '\r' := by
  rw [campoLimpio, List.all_eq_true] at h
  intro c hc
  have := h c hc
  simp only [Bool.not_eq_true', Bool.or_eq_false_iff, decide_eq_false_iff_not]
    at this
  exact ⟨this.1.1, this.1.2, this.2⟩

theorem cuerpoLibro_data (l : Libro) :
    (cuerpoLibro l).data
      = "LIBRO".data ++ '|' :: ((toString l.id).data ++ '|' :: (l.titulo.data
        ++ '|' :: (l.autor.data ++ '|' :: (l.isbn.data
        ++ '|' :: (pyBoolAStr l.disponible).data)))) := by
  have h1 : "LIBRO|".data = 'L' :: 'I' :: 'B' :: 'R' :: 'O' :: '|' :: [] := rfl
  have h2 : "LIBRO".data = 'L' :: 'I' :: 'B' :: 'R' :: 'O' :: [] := rfl
  have h3 : ("|" : String).data = ['|'] := rfl
  simp [cuerpoLibro, String.data_append, h1, h2, h3]

theorem cuerpoPrestamo_data (p : Prestamo) :
    (cuerpoPrestamo p).data
      = "PRESTAMO".data ++ '|' :: ((toString p.id).data
        ++ '|' :: ((toString p.libro_id).data ++ '|' :: (p.usuario.data
        ++ '|' :: (p.fecha.data ++ '|' :: (pyBoolAStr p.devuelto).data)))) := by
  have h1 : "PRESTAMO|".data
      = 'P' :: 'R' :: 'E' :: 'S' :: 'T' :: 'A' :: 'M' :: 'O' :: '|' :: [] := rfl
  have h2 : "PRESTAMO".data
      = 'P' :: 'R' :: 'E' :: 'S' :: 'T' :: 'A' :: 'M' :: 'O' :: [] := rfl
  have h3 : ("|" : String).data = ['|'] := rfl
  simp [cuerpoPrestamo, String.data_append, h1, h2, h3]

theorem pyBoolAStr_getLast (b : Bool) :
    (pyBoolAStr b).data.getLast? = some 'e' := by
  cases b <;> rfl

theorem cuerpoLibro_strip (l : Libro) :
    pyStrip (cuerpoLibro l) = cuerpoLibro l := by
  have hl : (cuerpoLibro l).data.getLast? = some 'e' := by
    rw [show cuerpoLibro l
        = ("LIBRO|" ++ toString l.id ++ "|" ++ l.titulo ++ "|" ++ l.autor
          ++ "|" ++ l.isbn ++ "|") ++ pyBoolAStr l.disponible from rfl,
      String.data_append, List.getLast?_append, pyBoolAStr_getLast]
    rfl
  have hh : (cuerpoLibro l).data.head? = some 'L' := by
    rw [cuerpoLibro_data]
    rfl
  have := pyStrip_bordes hh hl (by decide) (by decide)
  simpa using this

theorem cuerpoPrestamo_strip (p : Prestamo) :
    pyStrip (cuerpoPrestamo p) = cuerpoPrestamo p := by
  have hl : (cuerpoPrestamo p).data.getLast? = some 'e' := by
    rw [show cuerpoPrestamo p
        = ("PRESTAMO|" ++ toString p.id ++ "|" ++ toString p.libro_id ++ "|"
          ++ p.usuario ++ "|" ++ p.fecha ++ "|") ++ pyBoolAStr p.devuelto
        from rfl,
      String.data_append, List.getLast?_append, pyBoolAStr_getLast]
    rfl
  have hh : (cuerpoPrestamo p).data.head? = some 'P' := by
    rw [cuerpoPrestamo_data]
    rfl
  have := pyStrip_bordes hh hl (by decide) (by decide)
  simpa using this

theorem mkData (s : String) : (⟨s.data⟩ : String) = s := rfl

theorem pyBoolAStr_sin_sep (b : Bool) :
    ∀ c ∈ (pyBoolAStr b).data, c ≠ '|' := by
  cases b <;> decide

theorem pySplit_cuerpoLibro (l : Libro)
    (ht : campoLimpio l.titulo = true) (ha : campoLimpio l.autor = true)
    (hi : campoLimpio l.isbn = true) :
    pySplit '|' (cuerpoLibro l)
      = ["LIBRO", toString l.id, l.titulo, l.autor, l.isbn,
         pyBoolAStr l.disponible] := by
  rw [pySplit, cuerpoLibro_data]
  rw [pySplitAux_campo '|' ("LIBRO".data) (by decide)]
  rw [pySplitAux_campo '|' ((toString l.id).data)
    (fun c hc => (campoLimpio_props (toString_int_limpio l.id) c hc).1)]
  rw [pySplitAux_campo '|' (l.titulo.data)
    (fun c hc => (campoLimpio_props ht c hc).1)]
  rw [pySplitAux_campo '|' (l.autor.data)
    (fun c hc => (campoLimpio_props ha c hc).1)]
  rw [pySplitAux_campo '|' (l.isbn.data)
    (fun c hc => (campoLimpio_props hi c hc).1)]
  rw [pySplitAux_sin_sep (pyBoolAStr_sin_sep l.disponible)]
  simp [mkData]

theorem pySplit_cuerpoPrestamo (p : Prestamo)
    (hu : campoLimpio p.usuario = true) (hf : campoLimpio p.fecha = true) :
    pySplit '|' (cuerpoPrestamo p)
      = ["PRESTAMO", toString p.id, toString p.libro_id, p.usuario, p.fecha,
         pyBoolAStr p.devuelto] := by
  rw [pySplit, cuerpoPrestamo_data]
  rw [pySplitAux_campo '|' ("PRESTAMO".data) (by decide)]
  rw [pySplitAux_campo '|' ((toString p.id).data)
    (fun c hc => (campoLimpio_props (toString_int_limpio p.id) c hc).1)]
  rw [pySplitAux_campo '|' ((toString p.libro_id).data)
    (fun c hc => (campoLimpio_props (toString_int_limpio p.libro_id) c hc).1)]
  rw [pySplitAux_campo '|' (p.usuario.data)
    (fun c hc => (campoLimpio_props hu c hc).1)]
  rw [pySplitAux_campo '|' (p.fecha.data)
    (fun c hc => (campoLimpio_props hf c hc).1)]
  rw [pySplitAux_sin_sep (pyBoolAStr_sin_sep p.devuelto)]
  simp [mkData]

theorem pyMinuscula_pyBoolAStr (b : Bool) :
    (pyMinuscula (pyBoolAStr b) == "true") = b := by
  cases b <;> decide

theorem cargarLinea_cuerpoLibro (acc : CargaAcc) (l : Libro)
    (ht : campoLimpio l.titulo = true) (ha : campoLimpio l.autor = true)
    (hi : campoLimpio l.isbn = true) :
    cargarLinea acc (cuerpoLibro l)
      = some { acc with libros := acc.libros ++ [l],
                        max_libro_id := max acc.max_libro_id l.id } := by
  rw [cargarLinea]
  simp only [cuerpoLibro_strip, pySplit_cuerpoLibro l ht ha hi]
  simp [pyInt?_toString_int, pyMinuscula_pyBoolAStr]

theorem cargarLinea_cuerpoPrestamo (acc : CargaAcc) (p : Prestamo)
    (hu : campoLimpio p.usuario = true) (hf : campoLimpio p.fecha = true) :
    cargarLinea acc (cuerpoPrestamo p)
      = some { acc with prestamos := acc.prestamos ++ [p],
                        max_prestamo_id := max acc.max_prestamo_id p.id } := by
  rw [cargarLinea]
  simp only [cuerpoPrestamo_strip, pySplit_cuerpoPrestamo p hu hf]
  simp [pyInt?_toString_int, pyMinuscula_pyBoolAStr,
    show ("PRESTAMO" : String) ≠ "LIBRO" by decide]

theorem cargarLinea_skip {linea : String} (acc : CargaAcc)
    (h : (pySplit '|' (pyStrip linea)).length ≠ 6) :
    cargarLinea acc linea = some acc := by
  rw [cargarLinea]
  rw [if_neg (fun hc => h hc.2), if_neg (fun hc => h hc.2)]

theorem campoLimpio_sin_saltos {s : String} (h : campoLimpio s = true) :
    ∀ c ∈ s.data, c ≠ '\n' ∧ c ≠ '\r' :=
  fun c hc => ⟨(campoLimpio_props h c hc).2.1, (campoLimpio_props h c hc).2.2⟩

theorem pyBoolAStr_sin_saltos (b : Bool) :
    ∀ c ∈ (pyBoolAStr b).data, c ≠ '\n' ∧ c ≠ '\r' := by
  cases b <;> decide

theorem cuerpoLibro_sin_saltos (l : Libro)
    (ht : campoLimpio l.titulo = true) (ha : campoLimpio l.autor = true)
    (hi : campoLimpio l.isbn = true) :
    ∀ c ∈ (cuerpoLibro l).data, c ≠ '\n' ∧ c ≠ '\r' := by
  rw [cuerpoLibro_data]
  intro c hc
  rcases List.mem_append.mp hc with h | h
  · clear hc; revert h; revert c; decide
  rcases List.mem_cons.mp h with h | h
  · subst h; exact ⟨by decide, by decide⟩
  rcases List.mem_append.mp h with h | h
  · exact campoLimpio_sin_saltos (toString_int_limpio l.id) c h
  rcases List.mem_cons.mp h with h | h
  · subst h; exact ⟨by decide, by decide⟩
  rcases List.mem_append.mp h with h | h
  · exact campoLimpio_sin_saltos ht c h
  rcases List.mem_cons.mp h with h | h
  · subst h; exact ⟨by decide, by decide⟩
  rcases List.mem_append.mp h with h | h
  · exact campoLimpio_sin_saltos ha c h
  rcases List.mem_cons.mp h with h | h
  · subst h; exact ⟨by decide, by decide⟩
  rcases List.mem_append.mp h with h | h
  · exact campoLimpio_sin_saltos hi c h
  rcases List.mem_cons.mp h with h | h
  · subst h; exact ⟨by decide, by decide⟩
  exact pyBoolAStr_sin_saltos l.disponible c h

theorem cuerpoPrestamo_sin_saltos (p : Prestamo)
    (hu : campoLimpio p.usuario = true) (hf : campoLimpio p.fecha = true) :
    ∀ c ∈ (cuerpoPrestamo p).data, c ≠ '\n' ∧ c ≠ '\r' := by
  rw [cuerpoPrestamo_data]
  intro c hc
  rcases List.mem_append.mp hc with h | h
  · clear hc; revert h; revert c; decide
  rcases List.mem_cons.mp h with h | h
  · subst h; exact ⟨by decide, by decide⟩
  rcases List.mem_append.mp h with h | h
  · exact campoLimpio_sin_saltos (toString_int_limpio p.id) c h
  rcases List.mem_cons.mp h with h | h
  · subst h; exact ⟨by decide, by decide⟩
  rcases List.mem_append.mp h with h | h
  · exact campoLimpio_sin_saltos (toString_int_limpio p.libro_id) c h
  rcases List.mem_cons.mp h with h | h
  · subst h; exact ⟨by decide, by decide⟩
  rcases List.mem_append.mp h with h | h
  · exact campoLimpio_sin_saltos hu c h
  rcases List.mem_cons.mp h with h | h
  · subst h; exact ⟨by decide, by decide⟩
  rcases List.mem_append.mp h with h | h
  · exact campoLimpio_sin_saltos hf c h
  rcases List.mem_cons.mp h with h | h
  · subst h; exact ⟨by decide, by decide⟩
  exact pyBoolAStr_sin_saltos p.devuelto c h

theorem pyLineasAux_cuerpos (cuerpos : List String) (resto : List Char)
    (h : ∀ s ∈ cuerpos, ∀ c ∈ s.data, c ≠ '\n' ∧ c ≠ '\r') :
    pyLineasAux ((concatTodo (cuerpos.map (fun s => s ++ "\n"))).data ++ resto) []
      = cuerpos.map String.data ++ pyLineasAux resto [] := by
  induction cuerpos with
  | nil => simp [concatTodo]
  | cons s cola ih =>
    rw [List.map_cons, concatTodo, String.data_append, String.data_append,
      show ("\n" : String).data = ['\n'] from rfl]
    rw [List.append_assoc, List.append_assoc]
    rw [show ((['\n'] : List Char)
        ++ ((concatTodo (cola.map (fun s => s ++ "\n"))).data ++ resto))
      = '\n' :: ((concatTodo (cola.map (fun s => s ++ "\n"))).data ++ resto)
      from rfl]
    rw [pyLineasAux_linea (h s (List.mem_cons_self s cola))]
    rw [ih (fun x hx => h x (List.mem_cons_of_mem s hx))]
    simp

theorem cargarLineas_paso {acc acc2 : CargaAcc} {linea : String}
    (h : cargarLinea acc linea = some acc2) (resto : List String) :
    cargarLineas acc (linea :: resto) = cargarLineas acc2 resto := by
  rw [cargarLineas, h]

theorem cargarLineas_libros (libros : List Libro) (acc : CargaAcc)
    (resto : List String)
    (h : ∀ l ∈ libros, campoLimpio l.titulo = true ∧ campoLimpio l.autor = true
      ∧ campoLimpio l.isbn = true) :
    cargarLineas acc (libros.map cuerpoLibro ++ resto)
      = cargarLineas
          { acc with libros := acc.libros ++ libros,
                     max_libro_id :=
                       libros.foldl (fun m l => max m l.id) acc.max_libro_id }
          resto := by
  induction libros generalizing acc with
  | nil => simp
  | cons l cola ih =>
    obtain ⟨ht, ha, hi⟩ := h l (List.mem_cons_self l cola)
    rw [List.map_cons, List.cons_append,
      cargarLineas_paso (cargarLinea_cuerpoLibro acc l ht ha hi),
      ih _ (fun x hx => h x (List.mem_cons_of_mem l hx))]
    simp [List.foldl_cons, List.append_assoc]

theorem cargarLineas_prestamos (prestamos : List Prestamo) (acc : CargaAcc)
    (resto : List String)
    (h : ∀ p ∈ prestamos, campoLimpio p.usuario = true
      ∧ campoLimpio p.fecha = true) :
    cargarLineas acc (prestamos.map cuerpoPrestamo ++ resto)
      = cargarLineas
          { acc with prestamos := acc.prestamos ++ prestamos,
                     max_prestamo_id :=
                       prestamos.foldl (fun m p => max m p.id)
                         acc.max_prestamo_id }
          resto := by
  induction prestamos generalizing acc with
  | nil => simp
  | cons p cola ih =>
    obtain ⟨hu, hf⟩ := h p (List.mem_cons_self p cola)
    rw [List.map_cons, List.cons_append,
      cargarLineas_paso (cargarLinea_cuerpoPrestamo acc p hu hf),
      ih _ (fun x hx => h x (List.mem_cons_of_mem p hx))]
    simp [List.foldl_cons, List.append_assoc]

theorem cargarLinea_sin_pipe {linea : String}
    (h : ∀ c ∈ linea.data, c ≠ '|') (acc : CargaAcc) :
    cargarLinea acc linea = some acc := by
  apply cargarLinea_skip
  rw [pySplit, pySplitAux_sin_sep (fun c hc => h c (pyStrip_mem hc))]
  simp

theorem toString_nat_limpio (n : Nat) : campoLimpio (toString n) = true :=
  toString_int_limpio (Int.ofNat n)

theorem encabezado_libros_limpio (n : Nat) :
    ∀ c ∈ ("Libros: " ++ toString n).data, c ≠ '|' ∧ c ≠ '\n' ∧ c ≠ '\r' := by
  intro c hc
  rw [String.data_append] at hc
  rcases List.mem_append.mp hc with h | h
  · clear hc; revert h; revert c; decide
  · exact campoLimpio_props (toString_nat_limpio n) c h

theorem encabezado_prestamos_limpio (n : Nat) :
    ∀ c ∈ ("Préstamos: " ++ toString n).data,
      c ≠ '|' ∧ c ≠ '\n' ∧ c ≠ '\r' := by
  intro c hc
  rw [String.data_append] at hc
  rcases List.mem_append.mp hc with h | h
  · clear hc; revert h; revert c; decide
  · exact campoLimpio_props (toString_nat_limpio n) c h

theorem pyLineas_guardar (s : Repositorio)
    (hl : ∀ l ∈ s.libros, campoLimpio l.titulo = true
      ∧ campoLimpio l.autor = true ∧ campoLimpio l.isbn = true)
    (hp : ∀ p ∈ s.prestamos, campoLimpio p.usuario = true
      ∧ campoLimpio p.fecha = true) :
    pyLineas (Repositorio.guardar_en_archivo s)
      = ("Libros: " ++ toString s.libros.length)
        :: ("Préstamos: " ++ toString s.prestamos.length)
        :: (s.libros.map cuerpoLibro
            ++ (s.prestamos.map cuerpoPrestamo ++ [""])) := by
  rw [pyLineas, Repositorio.guardar_en_archivo]
  set H1 := "Libros: " ++ toString s.libros.length with hH1
  set H2 := "Préstamos: " ++ toString s.prestamos.length with hH2
  set CL := concatTodo (s.libros.map lineaLibro) with hCL
  set CP := concatTodo (s.prestamos.map lineaPrestamo) with hCP
  simp only [String.data_append, show ("\n" : String).data = ['\n'] from rfl,
    List.append_assoc, List.singleton_append]
  rw [pyLineasAux_linea
    (fun c hc => ((encabezado_libros_limpio s.libros.length) c hc).2)]
  rw [pyLineasAux_linea
    (fun c hc => ((encabezado_prestamos_limpio s.prestamos.length) c hc).2)]
  rw [hCL, hCP]
  rw [show s.libros.map lineaLibro
      = (s.libros.map cuerpoLibro).map (fun t => t ++ "\n") from
    (List.map_map (fun t => t ++ "\n") cuerpoLibro s.libros).symm]
  rw [pyLineasAux_cuerpos (s.libros.map cuerpoLibro)
    ((concatTodo (s.prestamos.map lineaPrestamo)).data)
    (by
      intro t ht
      obtain ⟨l, hls, rfl⟩ := List.mem_map.mp ht
      obtain ⟨h1, h2, h3⟩ := hl l hls
      exact cuerpoLibro_sin_saltos l h1 h2 h3)]
  rw [show s.prestamos.map lineaPrestamo
      = (s.prestamos.map cuerpoPrestamo).map (fun t => t ++ "\n") from
    (List.map_map (fun t => t ++ "\n") cuerpoPrestamo s.prestamos).symm]
  rw [show (concatTodo ((s.prestamos.map cuerpoPrestamo).map
        (fun t => t ++ "\n"))).data
      = (concatTodo ((s.prestamos.map cuerpoPrestamo).map
        (fun t => t ++ "\n"))).data ++ [] from (List.append_nil _).symm]
  rw [pyLineasAux_cuerpos (s.prestamos.map cuerpoPrestamo) []
    (by
      intro t ht
      obtain ⟨p, hps, rfl⟩ := List.mem_map.mp ht
      obtain ⟨h1, h2⟩ := hp p hps
      exact cuerpoPrestamo_sin_saltos p h1 h2)]
  rw [show pyLineasAux [] [] = [[]] from rfl]
  simp [mkData, List.map_map, Function.comp]
  refine ⟨?_, ?_, ?_⟩
  · rw [hH1]
    have h : ("Libros: " ++ toString s.libros.length).data
        = 'L' :: 'i' :: 'b' :: 'r' :: 'o' :: 's' :: ':' :: ' '
          :: (toString s.libros.length).data := by
      rw [String.data_append]
      rfl
    rw [← h]
  · rw [hH2]
    have h : ("Préstamos: " ++ toString s.prestamos.length).data
        = 'P' :: 'r' :: 'é' :: 's' :: 't' :: 'a' :: 'm' :: 'o' :: 's' :: ':'
          :: ' ' :: (toString s.prestamos.length).data := by
      rw [String.data_append]
      rfl
    rw [← h]
  · rw [show ((fun linea => (⟨linea⟩ : String)) ∘ String.data ∘ cuerpoLibro)
        = cuerpoLibro from funext (fun x => rfl)]
    rw [show ((fun linea => (⟨linea⟩ : String)) ∘ String.data ∘ cuerpoPrestamo)
        = cuerpoPrestamo from funext (fun x => rfl)]

theorem cargar_guardar (s : Repositorio)
    (hl : ∀ l ∈ s.libros, campoLimpio l.titulo = true
      ∧ campoLimpio l.autor = true ∧ campoLimpio l.isbn = true)
    (hp : ∀ p ∈ s.prestamos, campoLimpio p.usuario = true
      ∧ campoLimpio p.fecha = true) :
    Repositorio.cargar_desde_archivo (Repositorio.guardar_en_archivo s)
      = ⟨s.libros, s.prestamos,
         (if s.libros.foldl (fun m l => max m l.id) 0 > 0 then
            s.libros.foldl (fun m l => max m l.id) 0 + 1 else 1),
         (if s.prestamos.foldl (fun m p => max m p.id) 0 > 0 then
            s.prestamos.foldl (fun m p => max m p.id) 0 + 1 else 1)⟩ := by
  rw [Repositorio.cargar_desde_archivo, pyLineas_guardar s hl hp]
  rw [cargarLineas_paso (cargarLinea_sin_pipe
    (fun c hc => ((encabezado_libros_limpio s.libros.length) c hc).1) _) _]
  rw [cargarLineas_paso (cargarLinea_sin_pipe
    (fun c hc => ((encabezado_prestamos_limpio s.prestamos.length) c hc).1) _) _]
  rw [cargarLineas_libros s.libros _ _ hl]
  rw [cargarLineas_prestamos s.prestamos _ _ hp]
  rw [cargarLineas_paso (cargarLinea_sin_pipe (by decide) _) _]
  rw [show ∀ acc, cargarLineas acc [] = (acc, true) from fun acc => rfl]
  simp

/-! ### Lemmas about the repository list operations -/

theorem actualizarListaLibros_map_id (b : Libro) (ls : List Libro) :
    (actualizarListaLibros b ls).map (fun l => l.id)
      = ls.map (fun l => l.id) := by
  induction ls with
  | nil => rfl
  | cons l resto ih =>
    rw [actualizarListaLibros]
    by_cases h : (l.id == b.id) = true
    · rw [if_pos h]
      simp only [List.map_cons]
      rw [show b.id = l.id from (beq_iff_eq.mp h).symm]
    · rw [if_neg h]
      simp only [List.map_cons, ih]

theorem actualizarListaLibros_mem {b x : Libro} {ls : List Libro}
    (h : x ∈ actualizarListaLibros b ls) : x ∈ ls ∨ x = b := by
  induction ls with
  | nil => simp [actualizarListaLibros] at h
  | cons l resto ih =>
    rw [actualizarListaLibros] at h
    by_cases hid : (l.id == b.id) = true
    · rw [if_pos hid] at h
      rcases List.mem_cons.mp h with h | h
      · right; exact h
      · left; exact List.mem_cons_of_mem l h
    · rw [if_neg hid] at h
      rcases List.mem_cons.mp h with h | h
      · left; exact h ▸ List.mem_cons_self l resto
      · rcases ih h with h | h
        · left; exact List.mem_cons_of_mem l h
        · right; exact h

theorem actualizarListaLibros_mem_distintos {b x : Libro} {ls : List Libro}
    (hpar : (ls.map (fun l => l.id)).Pairwise (· ≠ ·))
    (h : x ∈ actualizarListaLibros b ls) :
    x = b ∨ (x ∈ ls ∧ x.id ≠ b.id) := by
  induction ls with
  | nil => simp [actualizarListaLibros] at h
  | cons l resto ih =>
    rw [List.map_cons, List.pairwise_cons] at hpar
    rw [actualizarListaLibros] at h
    by_cases hid : (l.id == b.id) = true
    · rw [if_pos hid] at h
      rcases List.mem_cons.mp h with h | h
      · left; exact h
      · right
        refine ⟨List.mem_cons_of_mem l h, ?_⟩
        have := hpar.1 x.id (List.mem_map.mpr ⟨x, h, rfl⟩)
        rw [← beq_iff_eq.mp hid]
        exact fun hc => this hc.symm
    · rw [if_neg hid] at h
      rcases List.mem_cons.mp h with h | h
      · right
        subst h
        exact ⟨List.mem_cons_self x resto, fun hc => hid (beq_iff_eq.mpr hc)⟩
      · rcases ih hpar.2 h with h | h
        · left; exact h
        · right; exact ⟨List.mem_cons_of_mem l h.1, h.2⟩

theorem find?_actualizarListaLibros {b l : Libro} {key : Int} {ls : List Libro}
    (hf : ls.find? (fun x => x.id == key) = some l) (hb : b.id = l.id) :
    (actualizarListaLibros b ls).find? (fun x => x.id == key) = some b := by
  have hkey : (l.id == key) = true :=
    @List.find?_some _ (fun x => x.id == key) l ls hf
  induction ls with
  | nil => simp at hf
  | cons q resto ih =>
    rw [List.find?_cons] at hf
    by_cases hq : (q.id == key) = true
    · simp only [hq] at hf
      injection hf with hf
      subst hf
      rw [actualizarListaLibros, if_pos (beq_iff_eq.mpr hb.symm),
        List.find?_cons]
      simp only [show (b.id == key) = true from by rw [hb]; exact hkey]
    · have hq2 : (q.id == key) = false := by
        revert hq; cases (q.id == key) <;> simp
      simp only [hq2] at hf
      rw [actualizarListaLibros]
      have hqb : (q.id == b.id) = false := by
        rw [hb]
        by_contra hc
        rw [Bool.not_eq_false, beq_iff_eq] at hc
        rw [hc, beq_iff_eq.mp hkey] at hq2
        simp at hq2
      rw [if_neg (by rw [hqb]; exact Bool.false_ne_true), List.find?_cons]
      simp only [hq2]
      exact ih hf

theorem actualizarListaPrestamos_map_id (q : Prestamo) (ps : List Prestamo) :
    (actualizarListaPrestamos q ps).map (fun p => p.id)
      = ps.map (fun p => p.id) := by
  induction ps with
  | nil => rfl
  | cons p resto ih =>
    rw [actualizarListaPrestamos]
    by_cases h : (p.id == q.id) = true
    · rw [if_pos h]
      simp only [List.map_cons]
      rw [show q.id = p.id from (beq_iff_eq.mp h).symm]
    · rw [if_neg h]
      simp only [List.map_cons, ih]

theorem actualizarListaPrestamos_mem {q x : Prestamo} {ps : List Prestamo}
    (h : x ∈ actualizarListaPrestamos q ps) : x ∈ ps ∨ x = q := by
  induction ps with
  | nil => simp [actualizarListaPrestamos] at h
  | cons p resto ih =>
    rw [actualizarListaPrestamos] at h
    by_cases hid : (p.id == q.id) = true
    · rw [if_pos hid] at h
      rcases List.mem_cons.mp h with h | h
      · right; exact h
      · left; exact List.mem_cons_of_mem p h
    · rw [if_neg hid] at h
      rcases List.mem_cons.mp h with h | h
      · left; exact h ▸ List.mem_cons_self p resto
      · rcases ih h with h | h
        · left; exact List.mem_cons_of_mem p h
        · right; exact h

theorem find?_actualizarListaPrestamos {q p : Prestamo} {key : Int}
    {ps : List Prestamo}
    (hf : ps.find? (fun x => x.id == key) = some p) (hq : q.id = p.id) :
    (actualizarListaPrestamos q ps).find? (fun x => x.id == key) = some q := by
  have hkey : (p.id == key) = true :=
    @List.find?_some _ (fun x => x.id == key) p ps hf
  induction ps with
  | nil => simp at hf
  | cons r resto ih =>
    rw [List.find?_cons] at hf
    by_cases hr : (r.id == key) = true
    · simp only [hr] at hf
      injection hf with hf
      subst hf
      rw [actualizarListaPrestamos, if_pos (beq_iff_eq.mpr hq.symm),
        List.find?_cons]
      simp only [show (q.id == key) = true from by rw [hq]; exact hkey]
    · have hr2 : (r.id == key) = false := by
        revert hr; cases (r.id == key) <;> simp
      simp only [hr2] at hf
      rw [actualizarListaPrestamos]
      have hrq : (r.id == q.id) = false := by
        rw [hq]
        by_contra hc
        rw [Bool.not_eq_false, beq_iff_eq] at hc
        rw [hc, beq_iff_eq.mp hkey] at hr2
        simp at hr2
      rw [if_neg (by rw [hrq]; exact Bool.false_ne_true), List.find?_cons]
      simp only [hr2]
      exact ih hf

theorem contarActivos_cons (bid : Int) (x : Prestamo) (l : List Prestamo) :
    contarActivos bid (x :: l)
      = (if (x.libro_id == bid && !x.devuelto) = true then 1 else 0)
        + contarActivos bid l := by
  rw [contarActivos, contarActivos, List.filter_cons]
  split
  · simp only [List.length_cons]
    omega
  · simp

theorem contarActivos_append (bid : Int) (ps : List Prestamo) (p : Prestamo) :
    contarActivos bid (ps ++ [p])
      = contarActivos bid ps
        + (if (p.libro_id == bid && !p.devuelto) = true then 1 else 0) := by
  induction ps with
  | nil =>
    rw [List.nil_append, contarActivos_cons,
      show contarActivos bid [] = 0 from rfl]
    omega
  | cons r resto ih =>
    rw [List.cons_append, contarActivos_cons, ih, contarActivos_cons]
    omega

theorem contarActivos_cero {bid : Int} {ps : List Prestamo}
    (h : ∀ p ∈ ps, (p.libro_id == bid) = false) : contarActivos bid ps = 0 := by
  rw [contarActivos]
  have hfil : ps.filter (fun q => q.libro_id == bid && !q.devuelto) = [] :=
    List.filter_eq_nil.mpr (fun q hq => by rw [h q hq]; simp)
  rw [hfil]
  rfl

theorem contarActivos_pos {bid : Int} {ps : List Prestamo} {p : Prestamo}
    (hp : p ∈ ps) (hb : (p.libro_id == bid) = true) (hd : p.devuelto = false) :
    1 ≤ contarActivos bid ps := by
  rw [contarActivos]
  have hmem : p ∈ ps.filter (fun q => q.libro_id == bid && !q.devuelto) :=
    List.mem_filter.mpr ⟨hp, by rw [hb, hd]; rfl⟩
  exact List.length_pos.mpr (List.ne_nil_of_mem hmem)

theorem contarActivos_actualizar {pid bid : Int} {p : Prestamo}
    {ps : List Prestamo}
    (hf : ps.find? (fun x => x.id == pid) = some p) (hd : p.devuelto = false) :
    contarActivos bid (actualizarListaPrestamos { p with devuelto := true } ps)
        + (if (p.libro_id == bid) = true then 1 else 0)
      = contarActivos bid ps := by
  induction ps with
  | nil => simp at hf
  | cons r resto ih =>
    rw [List.find?_cons] at hf
    by_cases hr : (r.id == pid) = true
    · simp only [hr] at hf
      injection hf with hf
      subst hf
      rw [actualizarListaPrestamos, if_pos (beq_iff_eq.mpr rfl)]
      rw [contarActivos_cons, contarActivos_cons, hd]
      simp only [Bool.not_false, Bool.not_true, Bool.and_true, Bool.and_false,
        Bool.false_eq_true, if_false]
      by_cases hlb : (r.libro_id == bid) = true
      · rw [if_pos hlb]
        omega
      · rw [if_neg hlb]
        omega
    · have hr2 : (r.id == pid) = false := by
        revert hr; cases (r.id == pid) <;> simp
      simp only [hr2] at hf
      have hpid : (p.id == pid) = true :=
        @List.find?_some _ (fun x => x.id == pid) p resto hf
      rw [actualizarListaPrestamos]
      have hrq : (r.id == p.id) = false := by
        by_contra hc
        rw [Bool.not_eq_false, beq_iff_eq] at hc
        rw [hc, beq_iff_eq.mp hpid] at hr2
        simp at hr2
      rw [if_neg (by rw [hrq]; exact Bool.false_ne_true)]
      rw [contarActivos_cons, contarActivos_cons]
      have := ih hf
      omega

/-! ### Branch-unfolding lemmas for the service operations -/

theorem agregar3_exito {titulo autor isbn : String} (s : Repositorio)
    (h1 : ¬(titulo = "" ∨ titulo.length < 2))
    (h2 : ¬(autor = "" ∨ autor.length < 3))
    (h3 : ¬(isbn = "" ∨ isbn.length < 10)) :
    Ejercicio03.agregar_libro titulo autor isbn s
      = ⟨"Libro '" ++ titulo ++ "' agregado exitosamente (ID: "
          ++ toString s.contador_libro ++ ")", [],
         { s with
           libros := s.libros ++ [⟨s.contador_libro, titulo, autor, isbn, true⟩],
           contador_libro := s.contador_libro + 1 }⟩ := by
  simp [Ejercicio03.agregar_libro, h1, h2, h3, Repositorio.agregar_libro]

theorem realizar3_exito {libro_id : Int} {usuario fecha : String}
    {s : Repositorio} {libro : Libro}
    (h1 : ¬(usuario = "" ∨ usuario.length < 3))
    (h2 : Repositorio.obtener_libro_por_id libro_id s = some libro)
    (h3 : libro.disponible = true) :
    Ejercicio03.realizar_prestamo libro_id usuario fecha s
      = ⟨"Préstamo realizado a " ++ usuario ++ " (ID Préstamo: "
          ++ toString s.contador_prestamo ++ ")",
         ["[NOTIFICACIÓN] " ++ usuario ++ ": Préstamo de '" ++ libro.titulo
           ++ "'"],
         { s with
           libros := actualizarListaLibros { libro with disponible := false }
             s.libros,
           prestamos := s.prestamos ++ [⟨s.contador_prestamo, libro_id, usuario, fecha, false⟩],
           contador_prestamo := s.contador_prestamo + 1 }⟩ := by
  simp [Ejercicio03.realizar_prestamo, h1, h2, h3,
    Repositorio.agregar_prestamo, Repositorio.actualizar_libro]

theorem devolver3_exito {prestamo_id : Int} {s : Repositorio}
    {prestamo : Prestamo} {libro : Libro}
    (h1 : Repositorio.obtener_prestamo_por_id prestamo_id s = some prestamo)
    (h2 : prestamo.devuelto = false)
    (h3 : Repositorio.obtener_libro_por_id prestamo.libro_id s = some libro) :
    Ejercicio03.devolver_libro prestamo_id s
      = ⟨"Libro devuelto exitosamente",
         ["[NOTIFICACIÓN] " ++ prestamo.usuario ++ ": Devolución de '"
           ++ libro.titulo ++ "'"],
         { s with
           libros := actualizarListaLibros { libro with disponible := true }
             s.libros,
           prestamos := actualizarListaPrestamos
             { prestamo with devuelto := true } s.prestamos }⟩ := by
  simp [Ejercicio03.devolver_libro, h1, h2, h3,
    Repositorio.actualizar_libro, Repositorio.actualizar_prestamo]

theorem devolver3_colgante {prestamo_id : Int} {s : Repositorio}
    {prestamo : Prestamo}
    (h1 : Repositorio.obtener_prestamo_por_id prestamo_id s = some prestamo)
    (h2 : prestamo.devuelto = false)
    (h3 : Repositorio.obtener_libro_por_id prestamo.libro_id s = none) :
    Ejercicio03.devolver_libro prestamo_id s
      = ⟨"Libro devuelto exitosamente", [],
         { s with
           prestamos := actualizarListaPrestamos
             { prestamo with devuelto := true } s.prestamos }⟩ := by
  simp [Ejercicio03.devolver_libro, h1, h2, h3,
    Repositorio.actualizar_prestamo]

/-! ### Preservation of the availability invariant -/

theorem invariante_vacio : Invariante Repositorio.vacio := by
  refine ⟨?_, ?_, ?_, ?_⟩ <;> simp [Repositorio.vacio]

theorem invariante_agregar (titulo autor isbn : String) (s : Repositorio)
    (h : Invariante s) :
    Invariante (Ejercicio03.agregar_libro titulo autor isbn s).estado := by
  by_cases h1 : titulo = "" ∨ titulo.length < 2
  · simpa [Ejercicio03.agregar_libro, h1] using h
  by_cases h2 : autor = "" ∨ autor.length < 3
  · simpa [Ejercicio03.agregar_libro, h1, h2] using h
  by_cases h3 : isbn = "" ∨ isbn.length < 10
  · simpa [Ejercicio03.agregar_libro, h1, h2, h3] using h
  rw [agregar3_exito s h1 h2 h3]
  obtain ⟨hIds, hPar, hRef, hCnt⟩ := h
  refine ⟨?_, ?_, ?_, ?_⟩
  · intro l hl
    rcases List.mem_append.mp hl with hm | hm
    · have := hIds l hm
      simp only []
      omega
    · rw [List.mem_singleton] at hm
      subst hm
      simp only []
      omega
  · rw [List.map_append, List.pairwise_append]
    refine ⟨hPar, by simp, ?_⟩
    intro x hx y hy
    obtain ⟨l, hl, rfl⟩ := List.mem_map.mp hx
    simp only [List.map_cons, List.map_nil, List.mem_singleton] at hy
    subst hy
    have := hIds l hl
    omega
  · intro p hp
    have := hRef p hp
    simp only []
    omega
  · intro l hl
    rcases List.mem_append.mp hl with hm | hm
    · exact hCnt l hm
    · rw [List.mem_singleton] at hm
      subst hm
      simp only []
      apply contarActivos_cero
      intro p hp
      have := hRef p hp
      exact beq_eq_false_iff_ne.mpr (by omega)

theorem invariante_realizar (libro_id : Int) (usuario fecha : String)
    (s : Repositorio) (h : Invariante s) :
    Invariante (Ejercicio03.realizar_prestamo libro_id usuario fecha s).estado := by
  by_cases h1 : usuario = "" ∨ usuario.length < 3
  · simpa [Ejercicio03.realizar_prestamo, h1] using h
  cases h2 : Repositorio.obtener_libro_por_id libro_id s with
  | none => simpa [Ejercicio03.realizar_prestamo, h1, h2] using h
  | some libro =>
    by_cases h3 : libro.disponible = true
    case neg =>
      have h3f : libro.disponible = false := by
        revert h3; cases libro.disponible <;> simp
      simpa [Ejercicio03.realizar_prestamo, h1, h2, h3f] using h
    case pos =>
      rw [realizar3_exito h1 h2 h3]
      obtain ⟨hIds, hPar, hRef, hCnt⟩ := h
      have hmem : libro ∈ s.libros := List.mem_of_find?_eq_some h2
      have hlid : libro.id = libro_id :=
        beq_iff_eq.mp
          (@List.find?_some _ (fun x : Libro => x.id == libro_id) _ _ h2)
      refine ⟨?_, ?_, ?_, ?_⟩
      · intro l hl
        rcases actualizarListaLibros_mem hl with hm | hm
        · exact hIds l hm
        · subst hm
          simpa using hIds libro hmem
      · rw [actualizarListaLibros_map_id]
        exact hPar
      · intro p hp
        rcases List.mem_append.mp hp with hm | hm
        · exact hRef p hm
        · rw [List.mem_singleton] at hm
          subst hm
          simp only []
          rw [← hlid]
          exact hIds libro hmem
      · intro l hl
        rcases actualizarListaLibros_mem_distintos hPar hl with hm | ⟨hm, hne⟩
        · subst hm
          rw [contarActivos_append]
          have hcero : contarActivos libro.id s.prestamos = 0 := by
            have := hCnt libro hmem
            rw [h3] at this
            simpa using this
          simp only []
          rw [hcero]
          have hbeq : (libro_id == libro.id) = true := beq_iff_eq.mpr hlid.symm
          simp [hbeq]
        · rw [contarActivos_append]
          have hbeq : (libro_id == l.id) = false := by
            apply beq_eq_false_iff_ne.mpr
            intro hc
            apply hne
            simp only []
            omega
          simp only []
          simp only [hbeq, Bool.false_and, Bool.false_eq_true, if_false,
            Nat.add_zero]
          exact hCnt l hm

theorem invariante_devolver (prestamo_id : Int) (s : Repositorio)
    (h : Invariante s) :
    Invariante (Ejercicio03.devolver_libro prestamo_id s).estado := by
  cases hp : Repositorio.obtener_prestamo_por_id prestamo_id s with
  | none => simpa [Ejercicio03.devolver_libro, hp] using h
  | some prestamo =>
    by_cases hdev : prestamo.devuelto = true
    · simpa [Ejercicio03.devolver_libro, hp, hdev] using h
    have hdev2 : prestamo.devuelto = false := by
      revert hdev; cases prestamo.devuelto <;> simp
    have hpmem : prestamo ∈ s.prestamos := List.mem_of_find?_eq_some hp
    have hfind : s.prestamos.find? (fun x => x.id == prestamo_id)
        = some prestamo := hp
    obtain ⟨hIds, hPar, hRef, hCnt⟩ := h
    cases hl : Repositorio.obtener_libro_por_id prestamo.libro_id s with
    | none =>
      rw [devolver3_colgante hp hdev2 hl]
      have hnadie : ∀ x ∈ s.libros, (x.id == prestamo.libro_id) = false := by
        intro x hx
        have := List.find?_eq_none.mp hl x hx
        revert this
        cases (x.id == prestamo.libro_id) <;> simp
      refine ⟨hIds, hPar, ?_, ?_⟩
      · intro p hp2
        rcases actualizarListaPrestamos_mem hp2 with hm | hm
        · exact hRef p hm
        · subst hm
          simpa using hRef prestamo hpmem
      · intro l hl2
        have hneq : (prestamo.libro_id == l.id) = false := by
          apply beq_eq_false_iff_ne.mpr
          intro hc
          have := hnadie l hl2
          rw [beq_eq_false_iff_ne] at this
          exact this hc.symm
        have := @contarActivos_actualizar prestamo_id l.id prestamo s.prestamos hfind hdev2
        rw [hneq] at this
        simp only [Bool.false_eq_true, if_false, Nat.add_zero] at this
        rw [this]
        exact hCnt l hl2
    | some libro =>
      rw [devolver3_exito hp hdev2 hl]
      have hlmem : libro ∈ s.libros := List.mem_of_find?_eq_some hl
      have hlibid : libro.id = prestamo.libro_id :=
        beq_iff_eq.mp
          (@List.find?_some _ (fun x : Libro => x.id == prestamo.libro_id)
            _ _ hl)
      have hpos : 1 ≤ contarActivos libro.id s.prestamos :=
        contarActivos_pos hpmem (beq_iff_eq.mpr hlibid.symm) hdev2
      have hndisp : libro.disponible = false := by
        by_contra hc
        rw [Bool.not_eq_false] at hc
        have := hCnt libro hlmem
        rw [hc] at this
        simp at this
        omega
      have huno : contarActivos libro.id s.prestamos = 1 := by
        have := hCnt libro hlmem
        rw [hndisp] at this
        simpa using this
      refine ⟨?_, ?_, ?_, ?_⟩
      · intro l hl2
        rcases actualizarListaLibros_mem hl2 with hm | hm
        · exact hIds l hm
        · subst hm
          simpa using hIds libro hlmem
      · rw [actualizarListaLibros_map_id]
        exact hPar
      · intro p hp2
        rcases actualizarListaPrestamos_mem hp2 with hm | hm
        · exact hRef p hm
        · subst hm
          simpa using hRef prestamo hpmem
      · intro l hl2
        rcases actualizarListaLibros_mem_distintos hPar hl2 with hm | ⟨hm, hne⟩
        · subst hm
          have hbq : (prestamo.libro_id == libro.id) = true :=
            beq_iff_eq.mpr hlibid.symm
          have hthis := @contarActivos_actualizar prestamo_id libro.id prestamo
            s.prestamos hfind hdev2
          rw [hbq, if_pos rfl, huno] at hthis
          show contarActivos libro.id
            (actualizarListaPrestamos { prestamo with devuelto := true }
              s.prestamos) = if true then 0 else 1
          rw [if_pos rfl]
          omega
        · have hneq : (prestamo.libro_id == l.id) = false := by
            apply beq_eq_false_iff_ne.mpr
            intro hc
            apply hne
            simp only []
            rw [← hc, ← hlibid]
          have := @contarActivos_actualizar prestamo_id l.id prestamo s.prestamos hfind hdev2
          rw [hneq] at this
          simp only [Bool.false_eq_true, if_false, Nat.add_zero] at this
          rw [this]
          exact hCnt l hm

theorem realizar2_exito {libro_id : Int} {usuario fecha : String}
    {s : Repositorio} {libro : Libro}
    (h1 : ValidadorBiblioteca.validar_usuario usuario = [])
    (h2 : Repositorio.obtener_libro_por_id libro_id s = some libro)
    (h3 : libro.disponible = true) :
    Ejercicio02.realizar_prestamo libro_id usuario fecha s
      = ⟨"Préstamo realizado a " ++ usuario ++ " (ID Préstamo: "
          ++ toString s.contador_prestamo ++ ")",
         [ServicioNotificaciones.notificacion_prestamo usuario libro.titulo],
         { s with
           libros := actualizarListaLibros { libro with disponible := false }
             s.libros,
           prestamos := s.prestamos ++ [⟨s.contador_prestamo, libro_id, usuario, fecha, false⟩],
           contador_prestamo := s.contador_prestamo + 1 }⟩ := by
  simp [Ejercicio02.realizar_prestamo, h1, h2, h3,
    ValidadorBiblioteca.validar_libro_disponible,
    Repositorio.agregar_prestamo, Repositorio.actualizar_libro]

theorem devolver2_exito {prestamo_id : Int} {s : Repositorio}
    {prestamo : Prestamo} {libro : Libro}
    (h1 : Repositorio.obtener_prestamo_por_id prestamo_id s = some prestamo)
    (h2 : prestamo.devuelto = false)
    (h3 : Repositorio.obtener_libro_por_id prestamo.libro_id s = some libro) :
    Ejercicio02.devolver_libro prestamo_id s
      = ⟨"Libro devuelto exitosamente",
         [ServicioNotificaciones.notificacion_devolucion prestamo.usuario
           libro.titulo],
         { s with
           libros := actualizarListaLibros { libro with disponible := true }
             s.libros,
           prestamos := actualizarListaPrestamos
             { prestamo with devuelto := true } s.prestamos }⟩ := by
  simp [Ejercicio02.devolver_libro, h1, h2, h3,
    ValidadorBiblioteca.validar_prestamo_existente,
    Repositorio.actualizar_libro, Repositorio.actualizar_prestamo]

theorem devolver2_colgante {prestamo_id : Int} {s : Repositorio}
    {prestamo : Prestamo}
    (h1 : Repositorio.obtener_prestamo_por_id prestamo_id s = some prestamo)
    (h2 : prestamo.devuelto = false)
    (h3 : Repositorio.obtener_libro_por_id prestamo.libro_id s = none) :
    Ejercicio02.devolver_libro prestamo_id s
      = ⟨"Libro devuelto exitosamente", [],
         { s with
           prestamos := actualizarListaPrestamos
             { prestamo with devuelto := true } s.prestamos }⟩ := by
  simp [Ejercicio02.devolver_libro, h1, h2, h3,
    ValidadorBiblioteca.validar_prestamo_existente,
    Repositorio.actualizar_prestamo]

/-- Pointwise formulation of the one-way `returned` transition: every stored
loan that was already returned is, at the same position, still returned. -/
def preservaDevuelto (antes despues : List Prestamo) : Prop :=
  ∀ (i : Nat) (p q : Prestamo), antes[i]? = some p → despues[i]? = some q →
    p.devuelto = true → q.devuelto = true

theorem preservaDevuelto_refl (ps : List Prestamo) :
    preservaDevuelto ps ps := by
  intro i p q hp hq hdev
  rw [hp] at hq
  injection hq with hq
  subst hq
  exact hdev

theorem preservaDevuelto_append (ps : List Prestamo) (x : Prestamo) :
    preservaDevuelto ps (ps ++ [x]) := by
  intro i p q hp hq hdev
  have hi : i < ps.length := by
    by_contra hc
    rw [List.getElem?_eq_none (by omega)] at hp
    exact Option.noConfusion hp
  rw [List.getElem?_append_left hi, hp] at hq
  injection hq with hq
  subst hq
  exact hdev

theorem actualizarListaPrestamos_getElem (q : Prestamo) (ps : List Prestamo)
    (i : Nat) :
    (actualizarListaPrestamos q ps)[i]? = ps[i]?
      ∨ (actualizarListaPrestamos q ps)[i]? = some q := by
  induction ps generalizing i with
  | nil => left; rfl
  | cons p resto ih =>
    rw [actualizarListaPrestamos]
    by_cases hid : (p.id == q.id) = true
    · rw [if_pos hid]
      cases i with
      | zero => right; simp
      | succ j => left; simp
    · rw [if_neg hid]
      cases i with
      | zero => left; simp
      | succ j =>
        rcases ih j with h | h
        · left
          simpa using h
        · right
          simpa using h

theorem preservaDevuelto_actualizar {x : Prestamo} (hx : x.devuelto = true)
    (ps : List Prestamo) :
    preservaDevuelto ps (actualizarListaPrestamos x ps) := by
  intro i p q hp hq hdev
  rcases actualizarListaPrestamos_getElem x ps i with h | h
  · rw [h, hp] at hq
    injection hq with hq
    subst hq
    exact hdev
  · rw [h] at hq
    injection hq with hq
    subst hq
    exact hx

theorem actualizarListaLibros_getElem_other {b : Libro} {ls : List Libro}
    (i : Nat) (l : Libro) (h : ls[i]? = some l) (hne : l.id ≠ b.id) :
    (actualizarListaLibros b ls)[i]? = some l := by
  induction ls generalizing i with
  | nil => simp at h
  | cons p resto ih =>
    rw [actualizarListaLibros]
    by_cases hid : (p.id == b.id) = true
    · rw [if_pos hid]
      cases i with
      | zero =>
        simp only [List.getElem?_cons_zero, Option.some.injEq] at h
        subst h
        exact absurd (beq_iff_eq.mp hid) hne
      | succ j =>
        simp only [List.getElem?_cons_succ] at h ⊢
        exact h
    · rw [if_neg hid]
      cases i with
      | zero =>
        simpa using h
      | succ j =>
        simp only [List.getElem?_cons_succ] at h ⊢
        exact ih j h

theorem actualizarListaLibros_length (b : Libro) (ls : List Libro) :
    (actualizarListaLibros b ls).length = ls.length := by
  have h := congrArg List.length (actualizarListaLibros_map_id b ls)
  simpa using h

theorem pyJoin_singleton (s : String) : pyJoin [s] = s := rfl

theorem foldl_max_ge_init {α : Type} (f : α → Int) (ls : List α) (acc : Int) :
    acc ≤ ls.foldl (fun m x => max m (f x)) acc := by
  induction ls generalizing acc with
  | nil => exact le_refl acc
  | cons x resto ih =>
    calc acc ≤ max acc (f x) := le_max_left _ _
    _ ≤ resto.foldl (fun m y => max m (f y)) (max acc (f x)) := ih _

theorem foldl_max_pos {α : Type} (f : α → Int) (ls : List α)
    (h : ∀ x ∈ ls, 1 ≤ f x) (hne : ls ≠ []) :
    0 < ls.foldl (fun m x => max m (f x)) 0 := by
  cases ls with
  | nil => exact absurd rfl hne
  | cons x resto =>
    have h1 : (1 : Int) ≤ max 0 (f x) :=
      le_trans (h x (List.mem_cons_self x resto)) (le_max_right _ _)
    calc (0 : Int) < max 0 (f x) := by omega
    _ ≤ resto.foldl (fun m y => max m (f y)) (max 0 (f x)) :=
        foldl_max_ge_init f resto _

/-! ### The claims -/

/-- C1: in every state reachable from the empty repository by any sequence of
`SistemaBibliotecaDIP` service operations (`agregar_libro`,
`realizar_prestamo`, `devolver_libro`), a stored book has
`disponible = false` exactly when exactly one stored loan references its id
with `devuelto = false`. -/
theorem claim_C1 (s : Repositorio) (hs : Alcanzable s) :
    ∀ l ∈ s.libros,
      (l.disponible = false ↔ contarActivos l.id s.prestamos = 1) := by
  have hinv : Invariante s := by
    induction hs with
    | vacio => exact invariante_vacio
    | agregar t a i hs ih => exact invariante_agregar t a i _ ih
    | prestamo lid u f hs ih => exact invariante_realizar lid u f _ ih
    | devolver pid hs ih => exact invariante_devolver pid _ ih
  intro l hl
  have hcnt := hinv.2.2.2 l hl
  cases hd : l.disponible
  · rw [hd] at hcnt
    simp only [if_neg Bool.false_ne_true] at hcnt
    simp [hcnt]
  · rw [hd] at hcnt
    simp only [if_pos rfl] at hcnt
    simp [hcnt]

theorem claim_C1_witness :
    (⟨1, "1984", "George Orwell", "9780451524935", true⟩ : Libro).disponible
        = false
      ↔ contarActivos 1 (Ejercicio03.agregar_libro "1984" "George Orwell"
          "9780451524935" Repositorio.vacio).estado.prestamos = 1 :=
  claim_C1 _ (Alcanzable.agregar _ _ _ Alcanzable.vacio) _ (by decide)

/-- C2 (amended): for a repository state whose string fields are free of the
field separator `|` and of line terminators, whose ids are the repository's
own (≥ 1) and pairwise distinct, serializing with `_guardar_en_archivo` and
loading the same content in a fresh `RepositorioArchivo` reproduces the book
and loan lists field for field, and sets each id counter to
`max(existing ids) + 1` (to `1` when that entity type has no records). -/
theorem claim_C2 (s : Repositorio)
    (hl : ∀ l ∈ s.libros, campoLimpio l.titulo = true
      ∧ campoLimpio l.autor = true ∧ campoLimpio l.isbn = true ∧ 1 ≤ l.id)
    (hp : ∀ p ∈ s.prestamos, campoLimpio p.usuario = true
      ∧ campoLimpio p.fecha = true ∧ 1 ≤ p.id)
    (hdl : (s.libros.map (fun l => l.id)).Pairwise (· ≠ ·))
    (hdp : (s.prestamos.map (fun p => p.id)).Pairwise (· ≠ ·)) :
    (Repositorio.cargar_desde_archivo
        (Repositorio.guardar_en_archivo s)).libros = s.libros
  ∧ (Repositorio.cargar_desde_archivo
        (Repositorio.guardar_en_archivo s)).prestamos = s.prestamos
  ∧ (s.libros ≠ [] →
      (Repositorio.cargar_desde_archivo
          (Repositorio.guardar_en_archivo s)).contador_libro
        = s.libros.foldl (fun m l => max m l.id) 0 + 1)
  ∧ (s.libros = [] →
      (Repositorio.cargar_desde_archivo
          (Repositorio.guardar_en_archivo s)).contador_libro = 1)
  ∧ (s.prestamos ≠ [] →
      (Repositorio.cargar_desde_archivo
          (Repositorio.guardar_en_archivo s)).contador_prestamo
        = s.prestamos.foldl (fun m p => max m p.id) 0 + 1)
  ∧ (s.prestamos = [] →
      (Repositorio.cargar_desde_archivo
          (Repositorio.guardar_en_archivo s)).contador_prestamo = 1) := by
  have hl3 : ∀ l ∈ s.libros, campoLimpio l.titulo = true
      ∧ campoLimpio l.autor = true ∧ campoLimpio l.isbn = true :=
    fun l hm => ⟨(hl l hm).1, (hl l hm).2.1, (hl l hm).2.2.1⟩
  have hp2 : ∀ p ∈ s.prestamos, campoLimpio p.usuario = true
      ∧ campoLimpio p.fecha = true :=
    fun p hm => ⟨(hp p hm).1, (hp p hm).2.1⟩
  rw [cargar_guardar s hl3 hp2]
  refine ⟨rfl, rfl, ?_, ?_, ?_, ?_⟩
  · intro hne
    have := foldl_max_pos (fun l : Libro => l.id) s.libros
      (fun l hm => (hl l hm).2.2.2) hne
    simp only []
    rw [if_pos this]
  · intro hnil
    rw [hnil]
    simp
  · intro hne
    have := foldl_max_pos (fun p : Prestamo => p.id) s.prestamos
      (fun p hm => (hp p hm).2.2) hne
    simp only []
    rw [if_pos this]
  · intro hnil
    rw [hnil]
    simp

theorem claim_C2_witness :
    (Repositorio.cargar_desde_archivo (Repositorio.guardar_en_archivo
        ⟨[⟨1, "Titulo Uno", "Autor", "isbn567890", false⟩],
         [⟨1, 1, "Usuario", "2024-01-01", false⟩], 2, 2⟩)).libros
      = [⟨1, "Titulo Uno", "Autor", "isbn567890", false⟩]
  ∧ (Repositorio.cargar_desde_archivo (Repositorio.guardar_en_archivo
        ⟨[⟨1, "Titulo Uno", "Autor", "isbn567890", false⟩],
         [⟨1, 1, "Usuario", "2024-01-01", false⟩], 2, 2⟩)).prestamos
      = [⟨1, 1, "Usuario", "2024-01-01", false⟩]
  ∧ (Repositorio.cargar_desde_archivo (Repositorio.guardar_en_archivo
        ⟨[⟨1, "Titulo Uno", "Autor", "isbn567890", false⟩],
         [⟨1, 1, "Usuario", "2024-01-01", false⟩], 2, 2⟩)).contador_libro
      = [(⟨1, "Titulo Uno", "Autor", "isbn567890", false⟩ : Libro)].foldl
          (fun m l => max m l.id) 0 + 1
  ∧ (Repositorio.cargar_desde_archivo (Repositorio.guardar_en_archivo
        ⟨[⟨1, "Titulo Uno", "Autor", "isbn567890", false⟩],
         [⟨1, 1, "Usuario", "2024-01-01", false⟩], 2, 2⟩)).contador_prestamo
      = [(⟨1, 1, "Usuario", "2024-01-01", false⟩ : Prestamo)].foldl
          (fun m p => max m p.id) 0 + 1 := by
  obtain ⟨h1, h2, h3, h4, h5, h6⟩ := claim_C2
    ⟨[⟨1, "Titulo Uno", "Autor", "isbn567890", false⟩],
     [⟨1, 1, "Usuario", "2024-01-01", false⟩], 2, 2⟩
    (by decide) (by decide) (by decide) (by decide)
  exact ⟨h1, h2, h3 (by decide), h5 (by decide)⟩

/-- C2 counterexample: a state whose fields are pipe-free (as the claim
requires) but contain a newline does not round-trip — the book list loads
back empty. -/
theorem claim_C2_counterexample :
    (Repositorio.cargar_desde_archivo (Repositorio.guardar_en_archivo
        ⟨[⟨1, "a\nb", "Autor", "isbn567890", true⟩], [], 2, 1⟩)).libros = []
  ∧ ¬ pyEn "|" "a\nb"
  ∧ (⟨[⟨1, "a\nb", "Autor", "isbn567890", true⟩], [], 2, 1⟩ :
      Repositorio).libros ≠ [] := by
  refine ⟨by decide, by decide, by decide⟩

/-- C3: whenever a service operation of either refactored system
(ejercicio02's `SistemaBibliotecaRefactorizado`; ejercicio03's
`SistemaBibliotecaDIP`) takes a validation-error branch, the repository
state — book list, loan list, both id counters — is returned unchanged. -/
theorem claim_C3 (s : Repositorio) (titulo autor isbn usuario fecha : String)
    (libro_id prestamo_id : Int) :
    (ValidadorBiblioteca.validar_libro titulo autor isbn ≠ [] →
      (Ejercicio02.agregar_libro titulo autor isbn s).estado = s)
  ∧ (ValidadorBiblioteca.validar_usuario usuario ≠ []
      ∨ ValidadorBiblioteca.validar_libro_disponible
          (Repositorio.obtener_libro_por_id libro_id s) ≠ [] →
      (Ejercicio02.realizar_prestamo libro_id usuario fecha s).estado = s)
  ∧ (ValidadorBiblioteca.validar_prestamo_existente
        (Repositorio.obtener_prestamo_por_id prestamo_id s) ≠ [] →
      (Ejercicio02.devolver_libro prestamo_id s).estado = s)
  ∧ ((titulo = "" ∨ titulo.length < 2) ∨ (autor = "" ∨ autor.length < 3)
      ∨ (isbn = "" ∨ isbn.length < 10) →
      (Ejercicio03.agregar_libro titulo autor isbn s).estado = s)
  ∧ ((usuario = "" ∨ usuario.length < 3)
      ∨ Repositorio.obtener_libro_por_id libro_id s = none
      ∨ (∃ libro, Repositorio.obtener_libro_por_id libro_id s = some libro
          ∧ libro.disponible = false) →
      (Ejercicio03.realizar_prestamo libro_id usuario fecha s).estado = s)
  ∧ (Repositorio.obtener_prestamo_por_id prestamo_id s = none
      ∨ (∃ p, Repositorio.obtener_prestamo_por_id prestamo_id s = some p
          ∧ p.devuelto = true) →
      (Ejercicio03.devolver_libro prestamo_id s).estado = s) := by
  refine ⟨?_, ?_, ?_, ?_, ?_, ?_⟩
  · intro h
    simp [Ejercicio02.agregar_libro, h]
  · intro h
    by_cases hu : ValidadorBiblioteca.validar_usuario usuario = []
    · rcases h with h | h
      · exact absurd hu h
      · simp [Ejercicio02.realizar_prestamo, hu, h]
    · simp [Ejercicio02.realizar_prestamo, hu]
  · intro h
    simp [Ejercicio02.devolver_libro, h]
  · intro h
    by_cases h1 : titulo = "" ∨ titulo.length < 2
    · simp [Ejercicio03.agregar_libro, h1]
    by_cases h2 : autor = "" ∨ autor.length < 3
    · simp [Ejercicio03.agregar_libro, h1, h2]
    by_cases h3 : isbn = "" ∨ isbn.length < 10
    · simp [Ejercicio03.agregar_libro, h1, h2, h3]
    rcases h with h | h | h
    · exact absurd h h1
    · exact absurd h h2
    · exact absurd h h3
  · intro h
    by_cases h1 : usuario = "" ∨ usuario.length < 3
    · simp [Ejercicio03.realizar_prestamo, h1]
    cases hfind : Repositorio.obtener_libro_por_id libro_id s with
    | none => simp [Ejercicio03.realizar_prestamo, h1, hfind]
    | some libro =>
      rcases h with h | h | ⟨libro2, hfind2, hdisp⟩
      · exact absurd h h1
      · rw [hfind] at h
        exact Option.noConfusion h
      · rw [hfind] at hfind2
        injection hfind2 with hfind2
        subst hfind2
        simp [Ejercicio03.realizar_prestamo, h1, hfind, hdisp]
  · intro h
    cases hfind : Repositorio.obtener_prestamo_por_id prestamo_id s with
    | none => simp [Ejercicio03.devolver_libro, hfind]
    | some p =>
      rcases h with h | ⟨p2, hfind2, hdev⟩
      · rw [hfind] at h
        exact Option.noConfusion h
      · rw [hfind] at hfind2
        injection hfind2 with hfind2
        subst hfind2
        simp [Ejercicio03.devolver_libro, hfind, hdev]

theorem claim_C3_witness :
    (Ejercicio02.agregar_libro "A" "B" "123" Repositorio.vacio).estado
        = Repositorio.vacio
  ∧ (Ejercicio02.realizar_prestamo 1 "Jo" "2024-01-01"
        Repositorio.vacio).estado = Repositorio.vacio
  ∧ (Ejercicio02.devolver_libro 1 Repositorio.vacio).estado = Repositorio.vacio
  ∧ (Ejercicio03.agregar_libro "A" "B" "123" Repositorio.vacio).estado
        = Repositorio.vacio
  ∧ (Ejercicio03.realizar_prestamo 1 "Jo" "2024-01-01"
        Repositorio.vacio).estado = Repositorio.vacio
  ∧ (Ejercicio03.devolver_libro 1 Repositorio.vacio).estado
        = Repositorio.vacio := by
  obtain ⟨h1, h2, h3, h4, h5, h6⟩ :=
    claim_C3 Repositorio.vacio "A" "B" "123" "Jo" "2024-01-01" 1 1
  exact ⟨h1 (by decide), h2 (Or.inl (by decide)), h3 (by decide),
    h4 (Or.inl (by decide)), h5 (Or.inl (by decide)), h6 (Or.inl (by decide))⟩

/-- C4 (amended): ejercicio02's validator runs all three checks and
accumulates every error, so its `agregar_libro("A","B","123")` returns the
three newline-joined messages and inserts nothing; ejercicio03's
`SistemaBibliotecaDIP.agregar_libro` short-circuits at the first failed
check and returns only the title error, also inserting nothing. -/
theorem claim_C4 (s : Repositorio) :
    ValidadorBiblioteca.validar_libro "A" "B" "123"
      = ["Error: Título inválido - debe tener al menos 2 caracteres",
         "Error: Autor inválido - debe tener al menos 3 caracteres",
         "Error: ISBN inválido - debe tener al menos 10 caracteres"]
  ∧ (Ejercicio02.agregar_libro "A" "B" "123" s).mensaje
      = pyJoin ["Error: Título inválido - debe tener al menos 2 caracteres",
         "Error: Autor inválido - debe tener al menos 3 caracteres",
         "Error: ISBN inválido - debe tener al menos 10 caracteres"]
  ∧ (Ejercicio02.agregar_libro "A" "B" "123" s).estado = s
  ∧ (Ejercicio03.agregar_libro "A" "B" "123" s).mensaje
      = "Error: Título inválido"
  ∧ (Ejercicio03.agregar_libro "A" "B" "123" s).estado = s := by
  have hval : ValidadorBiblioteca.validar_libro "A" "B" "123"
      = ["Error: Título inválido - debe tener al menos 2 caracteres",
         "Error: Autor inválido - debe tener al menos 3 caracteres",
         "Error: ISBN inválido - debe tener al menos 10 caracteres"] := by
    decide
  refine ⟨hval, ?_, ?_, ?_, ?_⟩
  · simp [Ejercicio02.agregar_libro, hval]
  · simp [Ejercicio02.agregar_libro, hval]
  · simp [Ejercicio03.agregar_libro, show ("A" : String).length < 2 by decide]
  · simp [Ejercicio03.agregar_libro, show ("A" : String).length < 2 by decide]

/-- C4 counterexample: `SistemaBibliotecaDIP.agregar_libro` with
`("A","B","123")` returns the single short-circuited title error, not the
three accumulated messages the claim requires. -/
theorem claim_C4_counterexample :
    (Ejercicio03.agregar_libro "A" "B" "123" Repositorio.vacio).mensaje
        = "Error: Título inválido"
  ∧ (ValidadorBiblioteca.validar_libro "A" "B" "123").length = 3
  ∧ (Ejercicio03.agregar_libro "A" "B" "123" Repositorio.vacio).mensaje
        ≠ pyJoin (ValidadorBiblioteca.validar_libro "A" "B" "123") := by
  refine ⟨by decide, by decide, by decide⟩

/-- C5 (amended): ejercicio01's registry dispatch fails loudly — an unknown
criterion raises `ValueError` (modelled as `Except.error`) — and a
registered criterion returns the strategy's output unchanged; but
ejercicio02/03's `buscar_libro` if/elif chain instead returns the soft empty
list for every unregistered criterion name. -/
theorem claim_C5 (sis : Ejercicio01.Sistema) (criterio valor : String)
    (rep : Repositorio) :
    (sis.estrategiaDe criterio = none →
      Ejercicio01.Sistema.buscar_libro criterio valor sis
        = Except.error ("Criterio de búsqueda no válido: " ++ criterio))
  ∧ (∀ e, sis.estrategiaDe criterio = some e →
      Ejercicio01.Sistema.buscar_libro criterio valor sis
        = Except.ok (e sis.libros valor))
  ∧ (criterio ∉ (["titulo", "autor", "isbn", "disponible"] : List String) →
      Ejercicio03.buscar_libro criterio valor rep = [])
  ∧ (criterio ∉ (["titulo", "autor", "isbn", "disponible"] : List String) →
      Ejercicio02.buscar_libro criterio valor rep = []) := by
  refine ⟨?_, ?_, ?_, ?_⟩
  · intro h
    rw [Ejercicio01.Sistema.buscar_libro, h]
  · intro e h
    rw [Ejercicio01.Sistema.buscar_libro, h]
  · intro h
    simp only [List.mem_cons, List.not_mem_nil, or_false, not_or] at h
    obtain ⟨h1, h2, h3, h4⟩ := h
    simp [Ejercicio03.buscar_libro, buscarPorCriterio, h1, h2, h3, h4]
  · intro h
    simp only [List.mem_cons, List.not_mem_nil, or_false, not_or] at h
    obtain ⟨h1, h2, h3, h4⟩ := h
    simp [Ejercicio02.buscar_libro, buscarPorCriterio, h1, h2, h3, h4]

theorem claim_C5_witness :
    (Ejercicio01.Sistema.buscar_libro "editorial" "q"
        ⟨[], Ejercicio01.estrategiasIniciales⟩
      = Except.error ("Criterio de búsqueda no válido: " ++ "editorial"))
  ∧ (Ejercicio01.Sistema.buscar_libro "titulo" "q"
        ⟨[], Ejercicio01.estrategiasIniciales⟩
      = Except.ok (Ejercicio01.busquedaPorTitulo [] "q"))
  ∧ Ejercicio03.buscar_libro "editorial" "q" Repositorio.vacio = []
  ∧ Ejercicio02.buscar_libro "editorial" "q" Repositorio.vacio = [] :=
  ⟨(claim_C5 ⟨[], Ejercicio01.estrategiasIniciales⟩ "editorial" "q"
      Repositorio.vacio).1 rfl,
   (claim_C5 ⟨[], Ejercicio01.estrategiasIniciales⟩ "titulo" "q"
      Repositorio.vacio).2.1 _ rfl,
   (claim_C5 ⟨[], Ejercicio01.estrategiasIniciales⟩ "editorial" "q"
      Repositorio.vacio).2.2.1 (by decide),
   (claim_C5 ⟨[], Ejercicio01.estrategiasIniciales⟩ "editorial" "q"
      Repositorio.vacio).2.2.2 (by decide)⟩

/-- C5 counterexample: on a nonempty store, searching with the unregistered
criterion `"editorial"` through `SistemaBibliotecaDIP.buscar_libro` returns
the plain empty list — the soft empty result the claim rules out — instead
of signalling `UnknownCriterion`. -/
theorem claim_C5_counterexample :
    Ejercicio03.buscar_libro "editorial" "x"
      ⟨[⟨1, "Titulo", "Autor", "isbn567890", true⟩], [], 2, 1⟩ = [] := by
  decide

/-- C6 (amended): ejercicio01's `BusquedaPorDisponibilidad` parses the query
as a boolean that is true exactly when the lowercased query is in the token
set `{"true","1","si","sí","yes"}` and returns, in input order, exactly the
books whose `disponible` equals that boolean; the `"disponible"` branches of
ejercicio02/03's `buscar_libro` instead treat only `"true"` (lowercased) as
true. -/
theorem claim_C6 (libros : List Libro) (valor : String) :
    Ejercicio01.busquedaPorDisponibilidad libros valor
      = libros.filter (fun l => l.disponible
          == decide (pyMinuscula valor
            ∈ (["true", "1", "si", "sí", "yes"] : List String)))
  ∧ (∀ rep : Repositorio,
      Ejercicio03.buscar_libro "disponible" valor rep
        = rep.libros.filter
            (fun l => l.disponible == (pyMinuscula valor == "true")))
  ∧ (∀ rep : Repositorio,
      Ejercicio02.buscar_libro "disponible" valor rep
        = rep.libros.filter
            (fun l => l.disponible == (pyMinuscula valor == "true"))) := by
  refine ⟨?_, ?_, ?_⟩
  · rw [Ejercicio01.busquedaPorDisponibilidad]
    simp only [List.elem_eq_mem]
  · intro rep
    simp [Ejercicio03.buscar_libro, buscarPorCriterio,
      Repositorio.obtener_todos_libros]
  · intro rep
    simp [Ejercicio02.buscar_libro, buscarPorCriterio,
      Repositorio.obtener_todos_libros]

/-- C6 counterexample: for the query `"1"` the claimed token-set parse is
`true`, so the claim predicts only available books; the availability branch
of `SistemaBibliotecaDIP.buscar_libro` parses `"1"` as `false` and returns
the unavailable book instead. -/
theorem claim_C6_counterexample :
    Ejercicio03.buscar_libro "disponible" "1"
        ⟨[⟨1, "Titulo", "Autor", "isbn567890", false⟩], [], 2, 1⟩
      = [⟨1, "Titulo", "Autor", "isbn567890", false⟩]
  ∧ pyMinuscula "1" ∈ (["true", "1", "si", "sí", "yes"] : List String)
  ∧ (⟨1, "Titulo", "Autor", "isbn567890", false⟩ : Libro).disponible
      = false := by
  refine ⟨by decide, by decide, by decide⟩

/-- C7: `devolver_libro` on an active loan succeeds in both systems even when
the loan's `libro_id` matches no stored book: the loan is marked returned,
the fixed success message is returned, no book record changes and no
notification is printed; when the book does exist it is flipped to
`disponible = true` and the return notification fires. -/
theorem claim_C7 (prestamo_id : Int) (s : Repositorio) (p : Prestamo)
    (hp : Repositorio.obtener_prestamo_por_id prestamo_id s = some p)
    (hdev : p.devuelto = false) :
    (Repositorio.obtener_libro_por_id p.libro_id s = none →
        (Ejercicio03.devolver_libro prestamo_id s).mensaje
            = "Libro devuelto exitosamente"
      ∧ (Ejercicio03.devolver_libro prestamo_id s).notificaciones = []
      ∧ (Ejercicio03.devolver_libro prestamo_id s).estado.libros = s.libros
      ∧ Repositorio.obtener_prestamo_por_id prestamo_id
          (Ejercicio03.devolver_libro prestamo_id s).estado
          = some { p with devuelto := true }
      ∧ (Ejercicio02.devolver_libro prestamo_id s).mensaje
          = "Libro devuelto exitosamente"
      ∧ (Ejercicio02.devolver_libro prestamo_id s).notificaciones = []
      ∧ (Ejercicio02.devolver_libro prestamo_id s).estado.libros = s.libros
      ∧ Repositorio.obtener_prestamo_por_id prestamo_id
          (Ejercicio02.devolver_libro prestamo_id s).estado
          = some { p with devuelto := true })
  ∧ (∀ libro, Repositorio.obtener_libro_por_id p.libro_id s = some libro →
        (Ejercicio03.devolver_libro prestamo_id s).mensaje
            = "Libro devuelto exitosamente"
      ∧ (Ejercicio03.devolver_libro prestamo_id s).notificaciones
          = ["[NOTIFICACIÓN] " ++ p.usuario ++ ": Devolución de '"
              ++ libro.titulo ++ "'"]
      ∧ Repositorio.obtener_libro_por_id p.libro_id
          (Ejercicio03.devolver_libro prestamo_id s).estado
          = some { libro with disponible := true }
      ∧ Repositorio.obtener_prestamo_por_id prestamo_id
          (Ejercicio03.devolver_libro prestamo_id s).estado
          = some { p with devuelto := true }
      ∧ (Ejercicio02.devolver_libro prestamo_id s).notificaciones
          = [ServicioNotificaciones.notificacion_devolucion p.usuario
              libro.titulo]
      ∧ Repositorio.obtener_libro_por_id p.libro_id
          (Ejercicio02.devolver_libro prestamo_id s).estado
          = some { libro with disponible := true }
      ∧ Repositorio.obtener_prestamo_por_id prestamo_id
          (Ejercicio02.devolver_libro prestamo_id s).estado
          = some { p with devuelto := true }) := by
  have hpid : p.id = prestamo_id :=
    beq_iff_eq.mp
      (@List.find?_some _ (fun x : Prestamo => x.id == prestamo_id) _ _ hp)
  constructor
  · intro hnone
    rw [devolver3_colgante hp hdev hnone, devolver2_colgante hp hdev hnone]
    refine ⟨rfl, rfl, rfl, ?_, rfl, rfl, rfl, ?_⟩ <;>
      exact find?_actualizarListaPrestamos hp rfl
  · intro libro hsome
    have hlid : libro.id = p.libro_id :=
      beq_iff_eq.mp
        (@List.find?_some _ (fun x : Libro => x.id == p.libro_id) _ _ hsome)
    rw [devolver3_exito hp hdev hsome, devolver2_exito hp hdev hsome]
    refine ⟨rfl, rfl, ?_, ?_, rfl, ?_, ?_⟩
    · exact find?_actualizarListaLibros hsome rfl
    · exact find?_actualizarListaPrestamos hp rfl
    · exact find?_actualizarListaLibros hsome rfl
    · exact find?_actualizarListaPrestamos hp rfl

theorem claim_C7_witness :
    ((Ejercicio03.devolver_libro 1
        ⟨[], [⟨1, 5, "Usuario", "2024-01-01", false⟩], 1, 2⟩).notificaciones
      = []
  ∧ (Ejercicio03.devolver_libro 1
        ⟨[], [⟨1, 5, "Usuario", "2024-01-01", false⟩], 1, 2⟩).mensaje
      = "Libro devuelto exitosamente"
  ∧ Repositorio.obtener_prestamo_por_id 1
        (Ejercicio03.devolver_libro 1
          ⟨[], [⟨1, 5, "Usuario", "2024-01-01", false⟩], 1, 2⟩).estado
      = some ⟨1, 5, "Usuario", "2024-01-01", true⟩)
  ∧ (Ejercicio03.devolver_libro 1
        ⟨[⟨1, "Titulo", "Autor", "isbn567890", false⟩],
         [⟨1, 1, "Usuario", "2024-01-01", false⟩], 2, 2⟩).notificaciones
      = ["[NOTIFICACIÓN] " ++ "Usuario" ++ ": Devolución de '" ++ "Titulo"
          ++ "'"] := by
  obtain ⟨hno, _⟩ := claim_C7 1
    ⟨[], [⟨1, 5, "Usuario", "2024-01-01", false⟩], 1, 2⟩
    ⟨1, 5, "Usuario", "2024-01-01", false⟩ (by decide) (by decide)
  obtain ⟨h1, h2, h3, h4, h5, h6, h7, h8⟩ := hno (by decide)
  obtain ⟨_, hsi⟩ := claim_C7 1
    ⟨[⟨1, "Titulo", "Autor", "isbn567890", false⟩],
     [⟨1, 1, "Usuario", "2024-01-01", false⟩], 2, 2⟩
    ⟨1, 1, "Usuario", "2024-01-01", false⟩ (by decide) (by decide)
  obtain ⟨_, hnotif, _⟩ :=
    hsi ⟨1, "Titulo", "Autor", "isbn567890", false⟩ (by decide)
  exact ⟨⟨h2, h1, h4⟩, hnotif⟩

/-- C8: the `devuelto` flag is one-way — after any single service operation
of either system, every stored loan that was returned is still returned at
its position — and a second `devolver_libro` on an already returned loan
returns the "already returned" error leaving the whole state untouched. -/
theorem claim_C8 (s : Repositorio) (titulo autor isbn usuario fecha : String)
    (libro_id prestamo_id : Int) :
    preservaDevuelto s.prestamos
      (Ejercicio03.agregar_libro titulo autor isbn s).estado.prestamos
  ∧ preservaDevuelto s.prestamos
      (Ejercicio03.realizar_prestamo libro_id usuario fecha s).estado.prestamos
  ∧ preservaDevuelto s.prestamos
      (Ejercicio03.devolver_libro prestamo_id s).estado.prestamos
  ∧ preservaDevuelto s.prestamos
      (Ejercicio02.agregar_libro titulo autor isbn s).estado.prestamos
  ∧ preservaDevuelto s.prestamos
      (Ejercicio02.realizar_prestamo libro_id usuario fecha s).estado.prestamos
  ∧ preservaDevuelto s.prestamos
      (Ejercicio02.devolver_libro prestamo_id s).estado.prestamos
  ∧ (∀ p, Repositorio.obtener_prestamo_por_id prestamo_id s = some p →
      p.devuelto = true →
      Ejercicio03.devolver_libro prestamo_id s
          = ⟨"Error: Libro ya devuelto", [], s⟩
      ∧ Ejercicio02.devolver_libro prestamo_id s
          = ⟨"Error: Libro ya devuelto", [], s⟩) := by
  refine ⟨?_, ?_, ?_, ?_, ?_, ?_, ?_⟩
  · by_cases h1 : titulo = "" ∨ titulo.length < 2
    · simp only [Ejercicio03.agregar_libro, if_pos h1]
      exact preservaDevuelto_refl s.prestamos
    by_cases h2 : autor = "" ∨ autor.length < 3
    · simp only [Ejercicio03.agregar_libro, if_neg h1, if_pos h2]
      exact preservaDevuelto_refl s.prestamos
    by_cases h3 : isbn = "" ∨ isbn.length < 10
    · simp only [Ejercicio03.agregar_libro, if_neg h1, if_neg h2, if_pos h3]
      exact preservaDevuelto_refl s.prestamos
    rw [agregar3_exito s h1 h2 h3]
    exact preservaDevuelto_refl s.prestamos
  · by_cases h1 : usuario = "" ∨ usuario.length < 3
    · simp only [Ejercicio03.realizar_prestamo, if_pos h1]
      exact preservaDevuelto_refl s.prestamos
    cases h2 : Repositorio.obtener_libro_por_id libro_id s with
    | none =>
      simp only [Ejercicio03.realizar_prestamo, if_neg h1, h2]
      exact preservaDevuelto_refl s.prestamos
    | some libro =>
      by_cases h3 : libro.disponible = true
      · rw [realizar3_exito h1 h2 h3]
        exact preservaDevuelto_append s.prestamos _
      · have h3f : libro.disponible = false := by
          revert h3; cases libro.disponible <;> simp
        simp only [Ejercicio03.realizar_prestamo, if_neg h1, h2, h3f,
          Bool.not_false, if_pos rfl]
        exact preservaDevuelto_refl s.prestamos
  · cases hp : Repositorio.obtener_prestamo_por_id prestamo_id s with
    | none =>
      simp only [Ejercicio03.devolver_libro, hp]
      exact preservaDevuelto_refl s.prestamos
    | some p =>
      by_cases hdev : p.devuelto = true
      · simp only [Ejercicio03.devolver_libro, hp, hdev, if_pos rfl]
        exact preservaDevuelto_refl s.prestamos
      · have hdev2 : p.devuelto = false := by
          revert hdev; cases p.devuelto <;> simp
        cases hl : Repositorio.obtener_libro_por_id p.libro_id s with
        | none =>
          rw [devolver3_colgante hp hdev2 hl]
          exact preservaDevuelto_actualizar rfl s.prestamos
        | some libro =>
          rw [devolver3_exito hp hdev2 hl]
          exact preservaDevuelto_actualizar rfl s.prestamos
  · by_cases h : ValidadorBiblioteca.validar_libro titulo autor isbn = []
    · simp only [Ejercicio02.agregar_libro, h]
      simp only [ne_eq, not_true_eq_false, if_false]
      exact preservaDevuelto_refl s.prestamos
    · simp only [Ejercicio02.agregar_libro, if_pos h]
      exact preservaDevuelto_refl s.prestamos
  · by_cases h1 : ValidadorBiblioteca.validar_usuario usuario = []
    · cases h2 : Repositorio.obtener_libro_por_id libro_id s with
      | none =>
        have hes : (Ejercicio02.realizar_prestamo libro_id usuario fecha
            s).estado = s := by
          simp [Ejercicio02.realizar_prestamo, h1, h2,
            ValidadorBiblioteca.validar_libro_disponible]
        rw [hes]
        exact preservaDevuelto_refl s.prestamos
      | some libro =>
        by_cases h3 : libro.disponible = true
        · rw [realizar2_exito h1 h2 h3]
          exact preservaDevuelto_append s.prestamos _
        · have h3f : libro.disponible = false := by
            revert h3; cases libro.disponible <;> simp
          have hes : (Ejercicio02.realizar_prestamo libro_id usuario fecha
              s).estado = s := by
            simp [Ejercicio02.realizar_prestamo, h1, h2, h3f,
              ValidadorBiblioteca.validar_libro_disponible]
          rw [hes]
          exact preservaDevuelto_refl s.prestamos
    · have hes : (Ejercicio02.realizar_prestamo libro_id usuario fecha
          s).estado = s := by
        simp [Ejercicio02.realizar_prestamo, h1]
      rw [hes]
      exact preservaDevuelto_refl s.prestamos
  · cases hp : Repositorio.obtener_prestamo_por_id prestamo_id s with
    | none =>
      have hes : (Ejercicio02.devolver_libro prestamo_id s).estado = s := by
        simp [Ejercicio02.devolver_libro, hp,
          ValidadorBiblioteca.validar_prestamo_existente]
      rw [hes]
      exact preservaDevuelto_refl s.prestamos
    | some p =>
      by_cases hdev : p.devuelto = true
      · have hes : (Ejercicio02.devolver_libro prestamo_id s).estado = s := by
          simp [Ejercicio02.devolver_libro, hp,
            ValidadorBiblioteca.validar_prestamo_existente, hdev]
        rw [hes]
        exact preservaDevuelto_refl s.prestamos
      · have hdev2 : p.devuelto = false := by
          revert hdev; cases p.devuelto <;> simp
        cases hl : Repositorio.obtener_libro_por_id p.libro_id s with
        | none =>
          rw [devolver2_colgante hp hdev2 hl]
          exact preservaDevuelto_actualizar rfl s.prestamos
        | some libro =>
          rw [devolver2_exito hp hdev2 hl]
          exact preservaDevuelto_actualizar rfl s.prestamos
  · intro p hp hdev
    constructor
    · simp [Ejercicio03.devolver_libro, hp, hdev]
    · simp [Ejercicio02.devolver_libro, hp,
        ValidadorBiblioteca.validar_prestamo_existente, hdev, pyJoin_singleton]

theorem claim_C8_witness :
    Ejercicio03.devolver_libro 1
        ⟨[], [⟨1, 1, "Usuario", "2024-01-01", true⟩], 1, 2⟩
      = ⟨"Error: Libro ya devuelto", [],
         ⟨[], [⟨1, 1, "Usuario", "2024-01-01", true⟩], 1, 2⟩⟩
  ∧ Ejercicio02.devolver_libro 1
        ⟨[], [⟨1, 1, "Usuario", "2024-01-01", true⟩], 1, 2⟩
      = ⟨"Error: Libro ya devuelto", [],
         ⟨[], [⟨1, 1, "Usuario", "2024-01-01", true⟩], 1, 2⟩⟩ := by
  obtain ⟨-, -, -, -, -, -, hfin⟩ := claim_C8
    ⟨[], [⟨1, 1, "Usuario", "2024-01-01", true⟩], 1, 2⟩
    "t" "a" "i" "u" "f" 1 1
  exact hfin ⟨1, 1, "Usuario", "2024-01-01", true⟩ (by decide) (by decide)

/-- C9 (amended): on load, a line that does not carry the `LIBRO` or
`PRESTAMO` tag with exactly 6 pipe-delimited fields is skipped without
aborting; a tagged 6-field line with parseable integer fields appends
exactly the corresponding record; but a tagged 6-field line whose integer
field fails to parse raises an exception that aborts the remainder of the
load, keeping only the records appended before it (construction still
succeeds, with the id counters left at 1). -/
theorem claim_C9 (acc : CargaAcc) (linea : String) :
    (¬((pySplit '|' (pyStrip linea)).headD "" = "LIBRO"
        ∧ (pySplit '|' (pyStrip linea)).length = 6)
      ∧ ¬((pySplit '|' (pyStrip linea)).headD "" = "PRESTAMO"
        ∧ (pySplit '|' (pyStrip linea)).length = 6)
      → cargarLinea acc linea = some acc)
  ∧ (∀ l : Libro, campoLimpio l.titulo = true → campoLimpio l.autor = true →
      campoLimpio l.isbn = true →
      cargarLinea acc (cuerpoLibro l)
        = some { acc with libros := acc.libros ++ [l],
                          max_libro_id := max acc.max_libro_id l.id })
  ∧ (∀ p : Prestamo, campoLimpio p.usuario = true →
      campoLimpio p.fecha = true →
      cargarLinea acc (cuerpoPrestamo p)
        = some { acc with prestamos := acc.prestamos ++ [p],
                          max_prestamo_id := max acc.max_prestamo_id p.id })
  ∧ (∀ resto : List String, cargarLinea acc linea = none →
      cargarLineas acc (linea :: resto) = (acc, false)) := by
  refine ⟨?_, ?_, ?_, ?_⟩
  · intro h
    rw [cargarLinea, if_neg h.1, if_neg h.2]
  · intro l ht ha hi
    exact cargarLinea_cuerpoLibro acc l ht ha hi
  · intro p hu hf
    exact cargarLinea_cuerpoPrestamo acc p hu hf
  · intro resto h
    rw [cargarLineas, h]

theorem claim_C9_witness :
    cargarLinea ⟨[], [], 0, 0⟩ "Libros: 3" = some ⟨[], [], 0, 0⟩
  ∧ cargarLinea ⟨[], [], 0, 0⟩
        (cuerpoLibro ⟨7, "Titulo", "Autor", "isbn567890", true⟩)
      = some ⟨[⟨7, "Titulo", "Autor", "isbn567890", true⟩], [], 7, 0⟩
  ∧ cargarLineas ⟨[], [], 0, 0⟩
        ["LIBRO|x|a|b|c|True", "LIBRO|2|T|A|I|True"]
      = (⟨[], [], 0, 0⟩, false) := by
  obtain ⟨hskip, hlib, -, -⟩ := claim_C9 ⟨[], [], 0, 0⟩ "Libros: 3"
  obtain ⟨-, -, -, habort⟩ := claim_C9 ⟨[], [], 0, 0⟩ "LIBRO|x|a|b|c|True"
  refine ⟨hskip (by decide), ?_, habort ["LIBRO|2|T|A|I|True"] (by decide)⟩
  have h := hlib ⟨7, "Titulo", "Autor", "isbn567890", true⟩
    (by decide) (by decide) (by decide)
  rw [h]
  decide

/-- C9 counterexample: a malformed 6-field `LIBRO` line (non-integer id)
aborts the rest of the load instead of being skipped: the well-formed third
line is never loaded, and the partially loaded repository is not empty. -/
theorem claim_C9_counterexample :
    Repositorio.cargar_desde_archivo
        "LIBRO|1|T|A|I|True\nLIBRO|x|a|b|c|True\nLIBRO|2|T2|A2|I2|True\n"
      = ⟨[⟨1, "T", "A", "I", true⟩], [], 1, 1⟩
  ∧ cargarLinea ⟨[], [], 0, 0⟩ "LIBRO|2|T2|A2|I2|True"
      = some ⟨[⟨2, "T2", "A2", "I2", true⟩], [], 2, 0⟩
  ∧ (⟨2, "T2", "A2", "I2", true⟩ : Libro) ∉ (Repositorio.cargar_desde_archivo
        "LIBRO|1|T|A|I|True\nLIBRO|x|a|b|c|True\nLIBRO|2|T2|A2|I2|True\n").libros
  ∧ (Repositorio.cargar_desde_archivo
        "LIBRO|1|T|A|I|True\nLIBRO|x|a|b|c|True\nLIBRO|2|T2|A2|I2|True\n").libros
      ≠ [] := by
  refine ⟨by decide, by decide, by decide, by decide⟩

/-- C10: after a successful `realizar_prestamo(libro_id, usuario)` in
`SistemaBibliotecaDIP`, every stored book at a position whose id differs
from `libro_id` is unchanged, the book list keeps its length, the loan list
is the old one with exactly the one new loan appended, and the book id
counter is untouched. -/
theorem claim_C10 (libro_id : Int) (usuario fecha : String) (s : Repositorio)
    (libro : Libro)
    (h1 : ¬(usuario = "" ∨ usuario.length < 3))
    (h2 : Repositorio.obtener_libro_por_id libro_id s = some libro)
    (h3 : libro.disponible = true) :
    (∀ (i : Nat) (l : Libro), s.libros[i]? = some l → l.id ≠ libro_id →
      (Ejercicio03.realizar_prestamo libro_id usuario fecha
        s).estado.libros[i]? = some l)
  ∧ (Ejercicio03.realizar_prestamo libro_id usuario fecha
        s).estado.libros.length = s.libros.length
  ∧ (Ejercicio03.realizar_prestamo libro_id usuario fecha s).estado.prestamos
      = s.prestamos ++ [⟨s.contador_prestamo, libro_id, usuario, fecha, false⟩]
  ∧ (Ejercicio03.realizar_prestamo libro_id usuario fecha
        s).estado.contador_libro = s.contador_libro := by
  have hlid : libro.id = libro_id :=
    beq_iff_eq.mp
      (@List.find?_some _ (fun x : Libro => x.id == libro_id) _ _ h2)
  rw [realizar3_exito h1 h2 h3]
  refine ⟨?_, ?_, rfl, rfl⟩
  · intro i l hil hne
    exact actualizarListaLibros_getElem_other i l hil
      (by simpa [hlid] using hne)
  · exact actualizarListaLibros_length _ _

theorem claim_C10_witness :
    ((Ejercicio03.realizar_prestamo 1 "Juan Pérez" "2024-01-01"
        ⟨[⟨1, "T1", "A1", "isbn567890", true⟩,
          ⟨2, "T2", "A2", "isbn567891", true⟩], [], 3, 1⟩).estado.libros[1]?
      = some ⟨2, "T2", "A2", "isbn567891", true⟩)
  ∧ (Ejercicio03.realizar_prestamo 1 "Juan Pérez" "2024-01-01"
        ⟨[⟨1, "T1", "A1", "isbn567890", true⟩,
          ⟨2, "T2", "A2", "isbn567891", true⟩], [], 3, 1⟩).estado.prestamos
      = [⟨1, 1, "Juan Pérez", "2024-01-01", false⟩] := by
  obtain ⟨hframe, -, hprest, -⟩ := claim_C10 1 "Juan Pérez" "2024-01-01"
    ⟨[⟨1, "T1", "A1", "isbn567890", true⟩,
      ⟨2, "T2", "A2", "isbn567891", true⟩], [], 3, 1⟩
    ⟨1, "T1", "A1", "isbn567890", true⟩
    (by decide) (by decide) (by decide)
  refine ⟨hframe 1 ⟨2, "T2", "A2", "isbn567891", true⟩ (by decide)
    (by decide), ?_⟩
  rw [hprest]
  decide
